import Mathlib

/-!
Verification development for the XSV travel-inquiry extraction pipeline.

The Python source is regex/heuristic string processing.  We embed the relevant
routines shallowly: strings are Lean `String`/`List Char`, Python `re` patterns
are transcribed into a small backtracking regex engine (`RE` below) whose
search semantics mirror CPython `re` (leftmost match position, greedy/lazy
quantifiers with backtracking, alternation tried left to right, non-overlapping
`finditer`, last capture per group).  Numeric scores and confidences are
modelled as `Rat`; all constants in the source are short decimals, and every
comparison relied on below is exact in both `Rat` and IEEE double.

All call sites in the source lower-case their input before matching
(`combined_text.lower()`), so patterns are transcribed with lower-case
literals and the `re.IGNORECASE` flag needs no separate treatment; Python
`str.lower` is modelled by ASCII lowering (the only non-ASCII characters in
scope, Devanagari and `₹`, are case-less).
-/

namespace XSV

/-! ### Character classes (Python `\w`, `\s`, `\d` over the repo's alphabet) -/

/-- Python `\w` restricted to the characters this repository's inputs use:
ASCII alphanumerics, underscore, and Devanagari (U+0900–U+097F).  Python's
`\w` is Unicode-aware; ASCII + Devanagari covers every word character that
appears in the source's patterns and sample inputs (`₹` U+20B9 is a currency
symbol and is not a word character, in Python or here). -/
def pyWord (c : Char) : Bool :=
  c.isAlphanum || c = '_' || (0x900 ≤ c.toNat && c.toNat ≤ 0x97F)

/-- Python `\s` (ASCII whitespace suffices for the repo's inputs). -/
def pySpace (c : Char) : Bool :=
  c = ' ' || c = '\t' || c = '\n' || c = '\r' || c = '\x0b' || c = '\x0c'

/-- Python `\d` (ASCII digits suffice for the repo's inputs). -/
def pyDigit (c : Char) : Bool := c.isDigit

/-- A character of the Devanagari block U+0900–U+097F
(the class `[ऀ-ॿ]` used throughout the language detector). -/
def isDevanagari (c : Char) : Bool := 0x900 ≤ c.toNat && c.toNat ≤ 0x97F

/-- An ASCII Latin letter (the class `[a-zA-Z]` of the language detector). -/
def isLatinLetter (c : Char) : Bool := c.isAlpha

/-! ### String helpers (Python `str` operations used by the source) -/

/-- Python `str.lower`, ASCII portion (sufficient: see module comment). -/
def lowerStr (s : String) : String := ⟨s.data.map Char.toLower⟩

/-- `needle` occurs at the head of `hay`. -/
def leadMatch : List Char → List Char → Bool
  | [], _ => true
  | _ :: _, [] => false
  | a :: as, b :: bs => a = b && leadMatch as bs

/-- Substring containment on character lists. -/
def containsSub (needle : List Char) : List Char → Bool
  | [] => leadMatch needle []
  | c :: rest => leadMatch needle (c :: rest) || containsSub needle rest

/-- Python `needle in hay` for strings. -/
def strContains (hay needle : String) : Bool := containsSub needle.data hay.data

/-- Characters before the first occurrence of `c` (Python `s.split(c)[0]`). -/
def takeUntilChar (c : Char) : List Char → List Char
  | [] => []
  | a :: rest => if a = c then [] else a :: takeUntilChar c rest

/-- Python `str.strip()` (trim whitespace at both ends). -/
def stripStr (s : String) : String :=
  ⟨(((s.data.dropWhile pySpace).reverse.dropWhile pySpace).reverse)⟩

/-- Python `str.title()`: upper-case every letter that follows a non-letter,
lower-case the rest. -/
def titleChars : Bool → List Char → List Char
  | _, [] => []
  | prevAlpha, c :: rest =>
    if c.isAlpha then
      (if prevAlpha then c.toLower else c.toUpper) :: titleChars true rest
    else
      c :: titleChars false rest

/-- Python `str.title()` on strings. -/
def titleStr (s : String) : String := ⟨titleChars false s.data⟩

/-- Digits of a natural number, most significant first. -/
def natDigits (n : Nat) : List Char :=
  (Nat.toDigits 10 n)

/-- Insert a comma after every third character (input is reversed digits). -/
def commaGroupRev : List Char → Nat → List Char
  | [], _ => []
  | [c], _ => [c]
  | c :: rest, k =>
    if k = 3 then c :: ',' :: commaGroupRev rest 1
    else c :: commaGroupRev rest (k + 1)

/-- Python `f"{n:,}"`: decimal rendering with a comma every three digits. -/
def commaFormat (n : Nat) : String := ⟨(commaGroupRev (natDigits n).reverse 1).reverse⟩

/-- Parse a digit string as a natural number (matches `int(...)` on the
digit-only captures produced by `\d+`). -/
def parseNatDigits (ds : List Char) : Nat :=
  ds.foldl (fun acc c => acc * 10 + (c.toNat - '0'.toNat)) 0

/-- `int(...)` on a captured string after Python `.replace(',', '')`. -/
def parseNatDropCommas (ds : List Char) : Nat :=
  parseNatDigits (ds.filter (fun c => c ≠ ','))

/-! ### A small backtracking regex engine

`RE` covers exactly the constructs appearing in the transcribed patterns:
literals, classes, concatenation, alternation (left preference), greedy and
lazy Kleene star, capture groups, negative lookahead, `^` (begin of input;
the source never sets `re.MULTILINE`) and the word boundary `\b`.  Matching
uses an explicit continuation and a fuel argument bounding recursion depth;
`reFuel` below is far larger than any possible depth on the given input, so
fuel exhaustion never occurs on the inputs considered. -/

inductive RE where
  | eps : RE
  | lit : Char → RE
  | cls : (Char → Bool) → RE
  | seq : RE → RE → RE
  | alt : RE → RE → RE
  | star : RE → RE
  | starl : RE → RE
  | grp : Nat → RE → RE
  | nla : RE → RE
  | bos : RE
  | bnd : RE

/-- Captures: group index paired with the captured characters (head of the
list = most recent capture, as Python keeps the last capture per group). -/
abbrev Caps := List (Nat × List Char)

/-- Continuation-passing matcher.  `prev` is the character just before the
current position (`none` at the beginning of the input), needed by `bos` and
`bnd`.  The continuation receives the new `prev`, the remaining input and the
captures; a result is the remaining input after the whole match together with
the captures. -/
def reM (fuel : Nat) (r : RE) (prev : Option Char) (s : List Char) (caps : Caps)
    (k : Option Char → List Char → Caps → Option (List Char × Caps)) :
    Option (List Char × Caps) :=
  match fuel with
  | 0 => none
  | fuel + 1 =>
    match r with
    | .eps => k prev s caps
    | .lit c =>
      match s with
      | [] => none
      | c2 :: rest => if c2 = c then k (some c2) rest caps else none
    | .cls p =>
      match s with
      | [] => none
      | c2 :: rest => if p c2 then k (some c2) rest caps else none
    | .seq a b => reM fuel a prev s caps (fun p2 s2 c2 => reM fuel b p2 s2 c2 k)
    | .alt a b =>
      match reM fuel a prev s caps k with
      | some res => some res
      | none => reM fuel b prev s caps k
    | .star a =>
      match reM fuel a prev s caps (fun p2 s2 c2 =>
          if s2.length < s.length then reM fuel (.star a) p2 s2 c2 k else none) with
      | some res => some res
      | none => k prev s caps
    | .starl a =>
      match k prev s caps with
      | some res => some res
      | none =>
        reM fuel a prev s caps (fun p2 s2 c2 =>
          if s2.length < s.length then reM fuel (.starl a) p2 s2 c2 k else none)
    | .grp n a =>
      reM fuel a prev s caps (fun p2 s2 c2 =>
        k p2 s2 ((n, s.take (s.length - s2.length)) :: c2))
    | .nla a =>
      match reM fuel a prev s caps (fun _ s2 c2 => some (s2, c2)) with
      | some _ => none
      | none => k prev s caps
    | .bos => if prev = none then k prev s caps else none
    | .bnd =>
      let pw := match prev with | none => false | some c => pyWord c
      let nw := match s with | [] => false | c :: _ => pyWord c
      if pw ≠ nw then k prev s caps else none

/-- Fuel that over-approximates any recursion depth the engine can reach on
input `s` with the (small, fixed) patterns of this file. -/
def reFuel (s : List Char) : Nat := 60 * s.length + 600

/-- A single match attempt anchored at the current position. -/
def reMatchHere (r : RE) (prev : Option Char) (s : List Char) :
    Option (Nat × Caps) :=
  match reM (reFuel s) r prev s [] (fun _ s2 c2 => some (s2, c2)) with
  | some (rest, caps) => some (s.length - rest.length, caps)
  | none => none

/-- `re.search`: leftmost match.  Returns the match's start offset relative to
`s`, its length, and its captures. -/
def reSearchAux (r : RE) (prev : Option Char) (s : List Char) (idx : Nat) :
    Option (Nat × Nat × Caps) :=
  match reMatchHere r prev s with
  | some (len, caps) => some (idx, len, caps)
  | none =>
    match s with
    | [] => none
    | c :: rest => reSearchAux r (some c) rest (idx + 1)

/-- `re.search` over a string; `some (start, length, captures)` on success. -/
def reSearch (r : RE) (s : String) : Option (Nat × Nat × Caps) :=
  reSearchAux r none s.data 0

/-- `re.search(...)` truthiness. -/
def reTest (r : RE) (s : String) : Bool := (reSearch r s).isSome

/-- A single match record: matched text and captures. -/
structure RMatch where
  matched : List Char
  caps : Caps

/-- Group lookup on a match, Python `match.group(i)` (the most recent capture
of the group wins, `none` when the group did not participate). -/
def RMatch.grp (m : RMatch) (i : Nat) : Option (List Char) :=
  (m.caps.find? (fun kv => kv.1 = i)).map (·.2)

/-- `re.finditer`: all non-overlapping matches, leftmost first, scanning
resumes after each match (advancing one character past empty matches,
as CPython does). -/
def reFindIterAux (r : RE) (prev : Option Char) (s : List Char) (fuel : Nat) :
    List RMatch :=
  match fuel with
  | 0 => []
  | fuel + 1 =>
    match reSearchAux r prev s 0 with
    | none => []
    | some (start, len, caps) =>
      let m : RMatch := ⟨(s.drop start).take len, caps⟩
      let consumed := start + max len 1
      let rest := s.drop consumed
      let prev2 := (s.take consumed).getLast?
      let prev2 := match prev2 with | none => prev | some c => some c
      m :: reFindIterAux r prev2 rest fuel

/-- `re.finditer` over a string. -/
def reFindIter (r : RE) (s : String) : List RMatch :=
  reFindIterAux r none s.data (s.data.length + 1)

/-- `len(re.findall(pattern, s))` (match count). -/
def reCount (r : RE) (s : String) : Nat := (reFindIter r s).length

/-! ### Pattern-building helpers -/

/-- Concatenation of a pattern list. -/
def rcat (l : List RE) : RE := l.foldr RE.seq RE.eps

/-- A regex that never matches (used as the unit of alternation lists). -/
def rfail : RE := RE.cls (fun _ => false)

/-- Alternation of a pattern list, left preference. -/
def ralt (l : List RE) : RE := l.foldr RE.alt rfail

/-- Literal string pattern. -/
def rstr (s : String) : RE := rcat (s.data.map RE.lit)

/-- `r?` -/
def ropt (r : RE) : RE := RE.alt r RE.eps

/-- `r+` (greedy). -/
def rplus (r : RE) : RE := RE.seq r (RE.star r)

/-- `\s+` -/
def rws1 : RE := rplus (RE.cls pySpace)

/-- `\s*` -/
def rws0 : RE := RE.star (RE.cls pySpace)

/-- `\d+` -/
def rdig1 : RE := rplus (RE.cls pyDigit)

/-- `\w+` -/
def rwrd1 : RE := rplus (RE.cls pyWord)

/-- `.` (any character but newline; the source never sets `re.DOTALL` on the
patterns transcribed here). -/
def rdot : RE := RE.cls (fun c => c ≠ '\n')

/-- `.*` (greedy). -/
def rany : RE := RE.star rdot

/-- `.*?` (lazy). -/
def ranyl : RE := RE.starl rdot

/-- `(\d+)` as group `n`. -/
def rgd (n : Nat) : RE := RE.grp n rdig1

/-- `(\w+)` as group `n`. -/
def rgw (n : Nat) : RE := RE.grp n rwrd1

/-- First `some` produced by `f` over a list (models Python's
`for ...: if hit: return ...` loops). -/
def firstSome {α β : Type} (f : α → Option β) : List α → Option β
  | [] => none
  | a :: rest =>
    match f a with
    | some b => some b
    | none => firstSome f rest

/-- `re.search` packaged as a match record. -/
def reSearchMatch (r : RE) (s : String) : Option RMatch :=
  (reSearch r s).map (fun x => ⟨(s.data.drop x.1).take x.2.1, x.2.2⟩)

/-- Substring test against a match's text
(Python `word in match.group(0)`). -/
def subIn (needle : String) (m : RMatch) : Bool :=
  containsSub needle.data m.matched

/-- Python `list(set(xs))` for string lists.  CPython's set iteration order
is unspecified; we fix first-seen order.  No claim in this development
depends on the relative order of two distinct surviving elements. -/
def pyListSet (l : List String) : List String :=
  l.foldl (fun acc s => if acc.contains s then acc else acc ++ [s]) []

/-!
## Field Extractor — `modules/optimized_extractor.py`, class `OptimizedTravelExtractor`

All extraction routines receive the already lower-cased
`combined_text = f"{subject} {text}".lower()` built by `extract_all_fields`.
-/

namespace Extractor

/-- `\s*(?:and|&|\+)?\s*` (the adults/children connective). -/
def randOpt : RE := rcat [rws0, ropt (ralt [rstr "and", rstr "&", rstr "+"]), rws0]

/-- `\s*(?:and|&|\+|&)?\s*` (variant with a duplicated `&` alternative,
as written in the source's `jisme` patterns). -/
def randOpt2 : RE :=
  rcat [rws0, ropt (ralt [rstr "and", rstr "&", rstr "+", rstr "&"]), rws0]

/-- `\s*(?:और|&|\+)?\s*` -/
def raurOpt : RE := rcat [rws0, ropt (ralt [rstr "और", rstr "&", rstr "+"]), rws0]

/-- `adults?` -/
def rAdults : RE := rcat [rstr "adult", ropt (RE.lit 's')]

/-- `children?` -/
def rChildren : RE := rcat [rstr "childre", ropt (RE.lit 'n')]

/-- A traveler pattern together with its static group count and whether the
pattern's source string contains `'including'` (the source's
`'including' in pattern` test). -/
structure TravPat where
  pat : RE
  nGroups : Nat
  hasIncluding : Bool

/-- `self.traveler_patterns`, in source order. -/
def traveler_patterns : List TravPat := [
  -- (\d+)\s+adults?\s*(?:and|&|\+)?\s*(\d+)\s+children?
  ⟨rcat [rgd 1, rws1, rAdults, randOpt, rgd 2, rws1, rChildren], 2, false⟩,
  -- (\d+)\s+adults?\s*(?:and|&|\+)?\s*(\d+)\s+child
  ⟨rcat [rgd 1, rws1, rAdults, randOpt, rgd 2, rws1, rstr "child"], 2, false⟩,
  -- (\d+)\s+वयस्क\s*(?:और|&|\+)?\s*(\d+)\s+बच्चे?
  ⟨rcat [rgd 1, rws1, rstr "वयस्क", raurOpt, rgd 2, rws1, rstr "बच्च",
    ropt (RE.lit 'े')], 2, false⟩,
  -- including\s+(\d+)\s+adults?\s*(?:and|&|\+)?\s*(\d+)\s+children?
  ⟨rcat [rstr "including", rws1, rgd 1, rws1, rAdults, randOpt, rgd 2, rws1,
    rChildren], 2, true⟩,
  -- including\s+(\d+)\s+adults?\s*(?:and|&|\+)?\s*(\d+)\s+child
  ⟨rcat [rstr "including", rws1, rgd 1, rws1, rAdults, randOpt, rgd 2, rws1,
    rstr "child"], 2, true⟩,
  -- jisme\s+(\d+)\s+adults?\s*(?:and|&|\+|&)?\s*(\d+)\s+children?
  ⟨rcat [rstr "jisme", rws1, rgd 1, rws1, rAdults, randOpt2, rgd 2, rws1,
    rChildren], 2, false⟩,
  -- (\d+)\s+travelers?\s*\(including\s+(\d+)\s+adults?\s*(?:and|&|\+)?\s*(\d+)\s+children?\)
  ⟨rcat [rgd 1, rws1, rstr "traveler", ropt (RE.lit 's'), rws0, RE.lit '(',
    rstr "including", rws1, rgd 2, rws1, rAdults, randOpt, rgd 3, rws1,
    rChildren, RE.lit ')'], 3, true⟩,
  -- (\d+)\s+travellers?\s*\(including\s+(\d+)\s+adults?\s*(?:and|&|\+)?\s*(\d+)\s+children?\)
  ⟨rcat [rgd 1, rws1, rstr "traveller", ropt (RE.lit 's'), rws0, RE.lit '(',
    rstr "including", rws1, rgd 2, rws1, rAdults, randOpt, rgd 3, rws1,
    rChildren, RE.lit ')'], 3, true⟩,
  -- (\d+)\s+(?:log|pax)\s*\(jisme\s+(\d+)\s+adults?\s*(?:and|&|\+|&)?\s*(\d+)\s+children?\)
  ⟨rcat [rgd 1, rws1, ralt [rstr "log", rstr "pax"], rws0, RE.lit '(',
    rstr "jisme", rws1, rgd 2, rws1, rAdults, randOpt2, rgd 3, rws1,
    rChildren, RE.lit ')'], 3, false⟩,
  -- (\d+)\s+adults?(?!\s+and|\s+&|\s+\+)
  ⟨rcat [rgd 1, rws1, rAdults,
    RE.nla (ralt [rcat [rws1, rstr "and"], rcat [rws1, rstr "&"],
      rcat [rws1, rstr "+"]])], 1, false⟩,
  -- (\d+)\s+वयस्क(?!\s+और)
  ⟨rcat [rgd 1, rws1, rstr "वयस्क", RE.nla (rcat [rws1, rstr "और"])], 1, false⟩,
  -- (\d+)\s+travelers?
  ⟨rcat [rgd 1, rws1, rstr "traveler", ropt (RE.lit 's')], 1, false⟩,
  -- (\d+)\s+travellers?
  ⟨rcat [rgd 1, rws1, rstr "traveller", ropt (RE.lit 's')], 1, false⟩,
  -- (\d+)\s+pax
  ⟨rcat [rgd 1, rws1, rstr "pax"], 1, false⟩,
  -- (\d+)\s+log
  ⟨rcat [rgd 1, rws1, rstr "log"], 1, false⟩]

/-- Body of `extract_adults`'s match loop for one match. -/
def adultsFromMatch (tp : TravPat) (m : RMatch) : Option Nat :=
  if 2 ≤ tp.nGroups then
    -- adults = int(groups[1]) if 'including' in pattern else int(groups[0])
    (m.grp (if tp.hasIncluding then 2 else 1)).map parseNatDigits
  else if tp.nGroups = 1 then
    -- 'adults' in match.group(0).lower() or 'वयस्क' in match.group(0)
    if subIn "adults" m || subIn "वयस्क" m then (m.grp 1).map parseNatDigits
    else none
  else none

/-- `extract_adults` (lines 329–349): first pattern in order whose first
usable match yields an adult count. -/
def extract_adults (text : String) : Option Nat :=
  firstSome (fun tp => firstSome (adultsFromMatch tp) (reFindIter tp.pat text))
    traveler_patterns

/-- Body of `extract_children`'s match loop for one match. -/
def childrenFromMatch (tp : TravPat) (m : RMatch) : Option Nat :=
  if 3 ≤ tp.nGroups then (m.grp 3).map parseNatDigits
  else if tp.nGroups = 2 && (subIn "child" m || subIn "बच्चे" m) then
    (m.grp 2).map parseNatDigits
  else none

/-- `extract_children` (lines 351–370); defaults to `0` when no pattern
yields a children count. -/
def extract_children (text : String) : Nat :=
  (firstSome (fun tp => firstSome (childrenFromMatch tp) (reFindIter tp.pat text))
    traveler_patterns).getD 0

/-- The explicit-total patterns of `extract_total_travelers`. -/
def total_patterns : List RE := [
  rcat [rgd 1, rws1, rstr "traveler", ropt (RE.lit 's')],
  rcat [rgd 1, rws1, rstr "traveller", ropt (RE.lit 's')],
  rcat [rgd 1, rws1, rstr "pax"],
  rcat [rgd 1, rws1, rstr "log"],
  rcat [rstr "कुल", rws1, rstr "यात्री", rws1, rgd 1]]

/-- `extract_total_travelers` (lines 372–397): explicit total if any pattern
matches, otherwise `adults + (children or 0)` when adults were found. -/
def extract_total_travelers (text : String) : Option Nat :=
  match firstSome
      (fun p => (reSearchMatch p text).bind (fun m => (m.grp 1).map parseNatDigits))
      total_patterns with
  | some n => some n
  | none =>
    match extract_adults text with
    | some a => some (a + extract_children text)
    | none => none

/-- `nights?` -/
def rNights : RE := rcat [rstr "night", ropt (RE.lit 's')]

/-- `days?` -/
def rDays : RE := rcat [rstr "day", ropt (RE.lit 's')]

/-- `self.duration_patterns` with their static group counts, in source order.
The `N`/`D` letters of patterns 3–4 are transcribed lower-case: the source
matches them with `re.IGNORECASE` against an already lower-cased text. -/
def duration_patterns : List (RE × Nat) := [
  -- (\d+)\s+nights?\s*/\s*(\d+)\s+days?
  (rcat [rgd 1, rws1, rNights, rws0, RE.lit '/', rws0, rgd 2, rws1, rDays], 2),
  -- (\d+)\s+nights?\s+/\s+(\d+)\s+days?
  (rcat [rgd 1, rws1, rNights, rws1, RE.lit '/', rws1, rgd 2, rws1, rDays], 2),
  -- (\d+)N\s*/\s*(\d+)D
  (rcat [rgd 1, RE.lit 'n', rws0, RE.lit '/', rws0, rgd 2, RE.lit 'd'], 2),
  -- (\d+)n\s*/\s*(\d+)d
  (rcat [rgd 1, RE.lit 'n', rws0, RE.lit '/', rws0, rgd 2, RE.lit 'd'], 2),
  -- (\d+)\s+nights?
  (rcat [rgd 1, rws1, rNights], 1),
  -- (\d+)\s+days?
  (rcat [rgd 1, rws1, rDays], 1),
  -- (\d+)\s+रात
  (rcat [rgd 1, rws1, rstr "रात"], 1),
  -- (\d+)\s+दिन
  (rcat [rgd 1, rws1, rstr "दिन"], 1)]

/-- The canonical `"N nights / M days"` rendering. -/
def mkDuration (nights days : Nat) : String :=
  toString nights ++ " nights / " ++ toString days ++ " days"

/-- Body of `extract_duration`'s per-pattern branch (lines 470–485). -/
def durationFromMatch (n : Nat) (m : RMatch) : Option String :=
  if n = 2 then
    match m.grp 1, m.grp 2 with
    | some g1, some g2 => some (mkDuration (parseNatDigits g1) (parseNatDigits g2))
    | _, _ => none
  else if n = 1 then
    if subIn "night" m then
      (m.grp 1).map (fun g =>
        let nights := parseNatDigits g
        mkDuration nights (nights + 1))
    else if subIn "day" m then
      (m.grp 1).map (fun g =>
        let days := parseNatDigits g
        -- nights = max(1, days - 1): natural and Python subtraction agree
        -- here (for days = 0 both give max 1 _ = 1)
        mkDuration (max 1 (days - 1)) days)
    else none
  else none

/-- `extract_duration` (lines 467–486). -/
def extract_duration (text : String) : Option String :=
  firstSome (fun pn => (reSearchMatch pn.1 text).bind (durationFromMatch pn.2))
    duration_patterns

/-- `(\d+(?:,\d{3})*(?:\.\d{2})?)` as group `n` (the budget amount). -/
def rAmount (n : Nat) : RE :=
  RE.grp n (rcat [rdig1,
    RE.star (rcat [RE.lit ',', RE.cls pyDigit, RE.cls pyDigit, RE.cls pyDigit]),
    ropt (rcat [RE.lit '.', RE.cls pyDigit, RE.cls pyDigit])])

/-- `self.budget_patterns`, in source order. -/
def budget_patterns : List RE := [
  -- ₹(amount)\s*(?:/\s*)?(?:per\s+)?person
  rcat [RE.lit '₹', rAmount 1, rws0, ropt (rcat [RE.lit '/', rws0]),
    ropt (rcat [rstr "per", rws1]), rstr "person"],
  -- ₹(amount)\s*(?:/\s*)?(?:per\s+)?व्यक्ति
  rcat [RE.lit '₹', rAmount 1, rws0, ropt (rcat [RE.lit '/', rws0]),
    ropt (rcat [rstr "per", rws1]), rstr "व्यक्ति"],
  -- around\s+₹(amount)
  rcat [rstr "around", rws1, RE.lit '₹', rAmount 1],
  -- approx\s+₹(amount)
  rcat [rstr "approx", rws1, RE.lit '₹', rAmount 1],
  -- ~\s*₹(amount)
  rcat [RE.lit '~', rws0, RE.lit '₹', rAmount 1],
  -- budget\s+is\s+₹(amount)
  rcat [rstr "budget", rws1, rstr "is", rws1, RE.lit '₹', rAmount 1],
  -- budget\s+₹(amount)
  rcat [rstr "budget", rws1, RE.lit '₹', rAmount 1],
  -- budget\s+(?:is\s+)?around\s+(amount)
  rcat [rstr "budget", rws1, ropt (rcat [rstr "is", rws1]), rstr "around", rws1,
    rAmount 1],
  -- budget\s+(?:is\s+)?approx\s+(amount)
  rcat [rstr "budget", rws1, ropt (rcat [rstr "is", rws1]), rstr "approx", rws1,
    rAmount 1]]

/-- `extract_budget` (lines 589–600).  Both branches of the source's
`if '₹' in match.group(0)` produce the same `f"₹{amount} per person"`
string, so the branch is collapsed here. -/
def extract_budget (text : String) : Option String :=
  firstSome (fun p => (reSearchMatch p text).bind (fun m =>
    (m.grp 1).map (fun g => "₹" ++ String.mk g ++ " per person")))
    budget_patterns

/-- The departure-city patterns shared by `extract_destinations` (lines
405–412). -/
def departure_patterns : List RE := [
  rcat [rstr "departing", rws1, rstr "from", rws1, rgw 1],
  rcat [rstr "departure", rws1, rstr "from", rws1, rgw 1],
  rcat [rstr "from", rws1, rgw 1, rws1, ralt [rstr "to", rstr "on", rstr "between"]],
  rcat [rstr "starting", rws1, rstr "from", rws1, rgw 1],
  rcat [rstr "leaving", rws1, rstr "from", rws1, rgw 1]]

/-- The departure-city set collected by `extract_destinations` (lines
404–419); `strip()`/`lower()` are no-ops on a `\w+` capture of the already
lower-cased text.  Represented as a list used only through membership. -/
def departureCities (text : String) : List String :=
  (departure_patterns.map (fun p => reFindIter p text)).flatten.filterMap
    (fun m => (m.grp 1).bind (fun g =>
      if 2 < g.length then some (String.mk g) else none))

/-- `self.destinations` — the gazetteer (lines 184–196), in source order. -/
def destinations : List String := [
  "Bali", "Singapore", "Dubai", "Maldives", "Goa", "Kerala", "Munnar",
  "Alleppey", "Kochi", "Chennai", "Mumbai", "Delhi", "Bengaluru",
  "Thailand", "Malaysia", "Japan", "Korea", "Vietnam", "Cambodia",
  "Europe", "London", "Paris", "Rome", "Switzerland", "Austria",
  "USA", "Canada", "Australia", "New Zealand", "South Africa",
  "Rajasthan", "Jaipur", "Udaipur", "Jodhpur", "Himachal Pradesh",
  "Manali", "Shimla", "Dharamshala", "Kashmir", "Srinagar", "Ladakh",
  "Uttarakhand", "Rishikesh", "Haridwar", "Nainital", "Mussoorie",
  "Tamil Nadu", "Ooty", "Kodaikanal", "Rameswaram", "Kanyakumari",
  "Karnataka", "Mysore", "Coorg", "Hampi", "Chikmagalur",
  "Andhra Pradesh", "Hyderabad", "Tirupati", "Vizag", "Araku"]

/-- `extract_destinations` (lines 399–430): gazetteer entries present with a
word boundary and not named as departure cities; `list(set(...))` modelled
by `pyListSet` (see its comment). -/
def extract_destinations (text : String) : List String :=
  let dep := departureCities text
  pyListSet (destinations.filter (fun dest =>
    let dl := lowerStr dest
    strContains text dl &&
      reTest (rcat [RE.bnd, rstr dl, RE.bnd]) text &&
      !(dep.contains dl)))

/-- The traveler-count step of `cross_validate_results` (lines 656–663):
when adults is truthy and children is not `None`, a missing/zero explicit
total is replaced by `adults + children` (a conflicting nonzero total is
only logged).  The function returns the updated `total_travellers` slot;
the hotel/meal branches of `cross_validate_results` do not read or write
any traveler field. -/
def crossValidateTravelersTotal (adults children total : Option Nat) : Option Nat :=
  if (adults.getD 0 ≠ 0) && children.isSome then
    if !(total.getD 0 ≠ 0) then some (adults.getD 0 + children.getD 0)
    else total
  else total

end Extractor

/-!
## Inquiry Classifier — `New folder/modules3333/New folder (3)/optimized_classifier.py`,
class `OptimizedInquiryClassifier`
-/

namespace Classifier

/-- `modules/schema.py`: `InquiryType` enumeration. -/
inductive InquiryType where
  | single_leg : InquiryType
  | multi_leg : InquiryType
  | modification : InquiryType
deriving DecidableEq, Repr

/-- The classification record returned by `classify_inquiry` (the free-text
`reasoning` diagnostic, which interpolates floating-point scores, is omitted:
no downstream consumer or claim reads it). -/
structure Classification where
  type : InquiryType
  confidence : Rat
  method : String
deriving DecidableEq, Repr

/-- The apostrophe character (U+0027), kept out of literal position. -/
def apoc : Char := Char.ofNat 39

/-- `self.modification_patterns`, in source order (lines 52–72). -/
def modification_patterns : List RE := [
  -- ^re:\s+trip
  rcat [RE.bos, rstr "re:", rws1, rstr "trip"],
  -- ^re:\s+.*query
  rcat [RE.bos, rstr "re:", rws1, rany, rstr "query"],
  -- ^re:\s+travel
  rcat [RE.bos, rstr "re:", rws1, rstr "travel"],
  -- (?:client\s+)?(?:has\s+)?made\s+(?:some\s+)?changes
  rcat [ropt (rcat [rstr "client", rws1]), ropt (rcat [rstr "has", rws1]),
    rstr "made", rws1, ropt (rcat [rstr "some", rws1]), rstr "changes"],
  -- (?:client\s+)?(?:ne\s+)?kuch\s+changes\s+kiye
  rcat [ropt (rcat [rstr "client", rws1]), ropt (rcat [rstr "ne", rws1]),
    rstr "kuch", rws1, rstr "changes", rws1, rstr "kiye"],
  -- would\s+like\s+to\s+(?:add|change|modify)
  rcat [rstr "would", rws1, rstr "like", rws1, rstr "to", rws1,
    ralt [rstr "add", rstr "change", rstr "modify"]],
  -- they\s+would\s+like\s+to\s+add
  rcat [rstr "they", rws1, rstr "would", rws1, rstr "like", rws1, rstr "to",
    rws1, rstr "add"],
  -- kindly\s+update\s+the\s+quote
  rcat [rstr "kindly", rws1, rstr "update", rws1, rstr "the", rws1, rstr "quote"],
  -- update.*quote.*resend
  rcat [rstr "update", rany, rstr "quote", rany, rstr "resend"],
  -- resend.*updated
  rcat [rstr "resend", rany, rstr "updated"],
  -- existing\s+(?:quote|booking|itinerary)
  rcat [rstr "existing", rws1, ralt [rstr "quote", rstr "booking", rstr "itinerary"]],
  -- original\s+(?:quote|booking|request)
  rcat [rstr "original", rws1, ralt [rstr "quote", rstr "booking", rstr "request"]],
  -- increasing\s+the\s+number
  rcat [rstr "increasing", rws1, rstr "the", rws1, rstr "number"],
  -- dates\s+also\s+need\s+to\s+change
  rcat [rstr "dates", rws1, rstr "also", rws1, rstr "need", rws1, rstr "to",
    rws1, rstr "change"],
  -- prefer\s+from\s+.*\s+to\s+.*
  rcat [rstr "prefer", rws1, rstr "from", rws1, rany, rws1, rstr "to", rws1, rany]]

/-- `is_modification` (lines 144–160): any modification pattern against the
lower-cased subject, then against the (already lower-cased) combined text. -/
def is_modification (text : String) (subject : String) : Bool :=
  modification_patterns.any (fun p => reTest p (lowerStr subject)) ||
    modification_patterns.any (fun p => reTest p text)

/-- `we\'?d?\s+like` -/
def rWedLike : RE :=
  rcat [rstr "we", ropt (RE.lit apoc), ropt (RE.lit 'd'), rws1, rstr "like"]

/-- The location-scoped preference patterns of `is_multi_leg`
(lines 167–174). -/
def location_preference_patterns : List RE := [
  -- for\s+(\w+),\s+we\'?d?\s+like\s+(?:to\s+stay|\d+\s+nights)
  rcat [rstr "for", rws1, rgw 1, RE.lit ',', rws1, rWedLike, rws1,
    ralt [rcat [rstr "to", rws1, rstr "stay"], rcat [rdig1, rws1, rstr "nights"]]],
  -- for\s+(\w+),\s+we\'?d?\s+like\s+(?:\d+\s+nights|\w+\s+hotel)
  rcat [rstr "for", rws1, rgw 1, RE.lit ',', rws1, rWedLike, rws1,
    ralt [rcat [rdig1, rws1, rstr "nights"], rcat [rwrd1, rws1, rstr "hotel"]]],
  -- for\s+(\w+).*?stay\s+\d+\s+nights
  rcat [rstr "for", rws1, rgw 1, ranyl, rstr "stay", rws1, rdig1, rws1,
    rstr "nights"],
  -- for\s+(\w+).*?(?:hotel|accommodation|stay)
  rcat [rstr "for", rws1, rgw 1, ranyl,
    ralt [rstr "hotel", rstr "accommodation", rstr "stay"]],
  -- in\s+(\w+),\s+we\'?d?\s+like\s+(?:to\s+stay|\d+\s+nights)
  rcat [rstr "in", rws1, rgw 1, RE.lit ',', rws1, rWedLike, rws1,
    ralt [rcat [rstr "to", rws1, rstr "stay"], rcat [rdig1, rws1, rstr "nights"]]],
  -- in\s+(\w+).*?stay\s+\d+\s+nights
  rcat [rstr "in", rws1, rgw 1, ranyl, rstr "stay", rws1, rdig1, rws1,
    rstr "nights"]]

/-- `self.multi_leg_patterns`, in source order (lines 36–49). -/
def multi_leg_patterns : List RE := [
  -- (\w+)\s+(?:and|&|\+)\s+(\w+)
  rcat [rgw 1, rws1, ralt [rstr "and", rstr "&", rstr "+"], rws1, rgw 2],
  -- (\w+)\s*,\s*(\w+)
  rcat [rgw 1, rws0, RE.lit ',', rws0, rgw 2],
  -- (\w+)\s+aur\s+(\w+)
  rcat [rgw 1, rws1, rstr "aur", rws1, rgw 2],
  -- (\w+)\s+&\s+(\w+)
  rcat [rgw 1, rws1, rstr "&", rws1, rgw 2],
  -- for\s+(\w+).*for\s+(\w+)
  rcat [rstr "for", rws1, rgw 1, rany, rstr "for", rws1, rgw 2],
  -- (\w+):\s+.*(\w+):
  rcat [rgw 1, RE.lit ':', rws1, rany, rgw 2, RE.lit ':'],
  -- group.*(\w+).*(\w+)
  rcat [rstr "group", rany, rgw 1, rany, rgw 2],
  -- travel\s+plans.*(\w+)\s+&\s+(\w+)
  rcat [rstr "travel", rws1, rstr "plans", rany, rgw 1, rws1, rstr "&", rws1,
    rgw 2]]

/-- The tertiary preference indicators of `is_multi_leg` (lines 203–206). -/
def preference_indicators : List RE := [
  -- (?:for|in)\s+(\w+).*?(?:nights?|hotel|star|meals?|transport)
  rcat [ralt [rstr "for", rstr "in"], rws1, rgw 1, ranyl,
    ralt [rcat [rstr "night", ropt (RE.lit 's')], rstr "hotel", rstr "star",
      rcat [rstr "meal", ropt (RE.lit 's')], rstr "transport"]],
  -- (?:for|in)\s+(\w+).*?(?:activities?|tour|visit)
  rcat [ralt [rstr "for", rstr "in"], rws1, rgw 1, ranyl,
    ralt [rcat [rstr "activitie", ropt (RE.lit 's')], rstr "tour", rstr "visit"]]]

/-- The travel-destination patterns shared by `is_multi_leg` and
`is_single_leg` (lines 223–228 and 262–267). -/
def travel_dest_patterns : List RE := [
  rcat [rstr "trip", rws1, rstr "to", rws1, rgw 1],
  rcat [rstr "travel", rws1, rstr "to", rws1, rgw 1],
  rcat [rstr "visiting", rws1, rgw 1],
  rcat [rstr "going", rws1, rstr "to", rws1, rgw 1]]

/-- Group-1 captures of all matches of all `pats`, keeping those longer than
two characters (the shared collect-and-filter loop; `.lower()` is a no-op on
the already lower-cased text). -/
def collectGroup1 (pats : List RE) (text : String) : List String :=
  (pats.map (fun p => reFindIter p text)).flatten.filterMap
    (fun m => (m.grp 1).bind (fun g =>
      if 2 < g.length then some (String.mk g) else none))

/-- `is_multi_leg` (lines 162–243). -/
def is_multi_leg (text : String) : Bool :=
  -- PRIMARY: two or more distinct location-scoped preference sections
  if 2 ≤ (pyListSet (collectGroup1 location_preference_patterns text)).length then
    true
  -- SECONDARY: an explicit paired-destination pattern with two distinct
  -- plausible names
  else if multi_leg_patterns.any (fun p => (reFindIter p text).any (fun m =>
      match m.grp 1, m.grp 2 with
      | some d1, some d2 => d1 ≠ d2 && 2 < d1.length && 2 < d2.length
      | _, _ => false)) then
    true
  -- TERTIARY: two or more distinct destinations with preference context
  else if 2 ≤ (pyListSet (collectGroup1 preference_indicators text)).length then
    true
  else
    -- FINAL CHECK of the source: both branches return False
    let actual := pyListSet (collectGroup1 travel_dest_patterns text)
    if actual.length = 1 then false else false

/-- The strong single-leg patterns of `is_single_leg` (lines 249–254). -/
def single_leg_strong_patterns : List RE := [
  -- trip\s+to\s+(\w+)\s+for\s+\d+\s+(?:adults?|travelers?)
  rcat [rstr "trip", rws1, rstr "to", rws1, rgw 1, rws1, rstr "for", rws1,
    rdig1, rws1, ralt [rcat [rstr "adult", ropt (RE.lit 's')],
      rcat [rstr "traveler", ropt (RE.lit 's')]]],
  -- planning\s+a\s+\d+\s+nights?\s+trip\s+to\s+(\w+)
  rcat [rstr "planning", rws1, rstr "a", rws1, rdig1, rws1, rstr "night",
    ropt (RE.lit 's'), rws1, rstr "trip", rws1, rstr "to", rws1, rgw 1],
  -- client\s+is\s+planning.*?trip\s+to\s+(\w+)
  rcat [rstr "client", rws1, rstr "is", rws1, rstr "planning", ranyl,
    rstr "trip", rws1, rstr "to", rws1, rgw 1],
  -- (\w+)\s+for\s+\d+\s+(?:adults?|travelers?)
  rcat [rgw 1, rws1, rstr "for", rws1, rdig1, rws1,
    ralt [rcat [rstr "adult", ropt (RE.lit 's')],
      rcat [rstr "traveler", ropt (RE.lit 's')]]]]

/-- `is_single_leg` (lines 245–276): a strong pattern hit, or exactly one
travel-destination match (matches counted, not deduplicated). -/
def is_single_leg (text : String) : Bool :=
  if single_leg_strong_patterns.any (fun p => reTest p text) then true
  else (collectGroup1 travel_dest_patterns text).length = 1

/-- `for\s+(\w+),\s+we\'?d?\s+like` (the location-section count used by both
confidence calculators). -/
def rForWedLike : RE := rcat [rstr "for", rws1, rgw 1, RE.lit ',', rws1, rWedLike]

/-- `calculate_multi_leg_confidence` (lines 278–304). -/
def calculate_multi_leg_confidence (text : String) : Rat :=
  let c1 : Rat :=
    if 2 ≤ (pyListSet ((reFindIter rForWedLike text).filterMap
        (fun m => (m.grp 1).map String.mk))).length then 8/10 else 0
  -- for\s+\w+.*?nights?.*?hotel   /   in\s+\w+.*?stay.*?nights?
  let destSpecific : List RE := [
    rcat [rstr "for", rws1, rwrd1, ranyl, rstr "night", ropt (RE.lit 's'),
      ranyl, rstr "hotel"],
    rcat [rstr "in", rws1, rwrd1, ranyl, rstr "stay", ranyl, rstr "night",
      ropt (RE.lit 's')]]
  let c2 : Rat := destSpecific.foldl
    (fun acc p => if 2 ≤ reCount p text then acc + 6/10 else acc) 0
  -- transportation.*?(?:private|taxi|shuttle|public)
  let transport : RE := rcat [rstr "transportation", ranyl,
    ralt [rstr "private", rstr "taxi", rstr "shuttle", rstr "public"]]
  let c3 : Rat := if 2 ≤ reCount transport text then 4/10 else 0
  min (c1 + c2 + c3) 1

/-- `calculate_single_leg_confidence` (lines 306–338). -/
def calculate_single_leg_confidence (text : String) : Rat :=
  let singles : List RE := [
    rcat [rstr "trip", rws1, rstr "to", rws1, rwrd1, rws1, rstr "for", rws1, rdig1],
    rcat [rstr "planning", rws1, rstr "a", ranyl, rstr "trip", rws1, rstr "to",
      rws1, rwrd1],
    rcat [rstr "client", rws1, rstr "is", rws1, rstr "planning", ranyl,
      rstr "to", rws1, rwrd1]]
  let c1 : Rat := singles.foldl
    (fun acc p => if reTest p text then acc + 7/10 else acc) 0
  let prefs : List RE := [
    rcat [rstr "preferred", rws1, rstr "hotel", rws1, rstr "is"],
    rcat [rstr "they", rws1, rstr "would", rws1, rstr "like", rws1, rstr "to",
      rws1, rstr "include"],
    rcat [rstr "special", rws1, rstr "request"],
    rcat [rstr "budget", rws1, rstr "is", rws1, rstr "around"]]
  let c2 : Rat := prefs.foldl
    (fun acc p => if reTest p text then acc + 2/10 else acc) 0
  let pen : Rat :=
    if 2 ≤ (pyListSet ((reFindIter rForWedLike text).filterMap
        (fun m => (m.grp 1).map String.mk))).length then 8/10 else 0
  max (c1 + c2 - pen) 0

/-- `classify_inquiry` (lines 81–142).  Note the argument order of the
source: `classify_inquiry(text, subject)` with
`combined_text = f"{subject} {text}".lower()`. -/
def classify_inquiry (text : String) (subject : String) : Classification :=
  let combined := lowerStr (subject ++ " " ++ text)
  if is_modification combined subject then
    ⟨InquiryType.modification, 98/100, "pattern_based"⟩
  else
    let isMulti := is_multi_leg combined
    let isSingle := is_single_leg combined
    if isMulti && isSingle then
      if calculate_single_leg_confidence combined <
          calculate_multi_leg_confidence combined then
        ⟨InquiryType.multi_leg, 95/100, "confidence_scoring"⟩
      else
        ⟨InquiryType.single_leg, 95/100, "confidence_scoring"⟩
    else if isMulti then
      ⟨InquiryType.multi_leg, 95/100, "pattern_based"⟩
    else
      ⟨InquiryType.single_leg, 90/100, "pattern_based"⟩

end Classifier

/-!
## Language Classifier — `New folder/modules3333/New folder (2)/optimized_language_detector.py`,
class `OptimizedLanguageDetector`

Scores are modelled in `Rat`.  Every comparison below that decides a claim
involves either exact zeros or constants at least `0.1` apart, where `Rat`
and IEEE-double arithmetic agree.
-/

namespace LangDetect

/-- The per-category score map (the `scores` dict, insertion order
`hindi, hindi_english, hinglish, english`). -/
structure Scores where
  hindi : Rat
  hindi_english : Rat
  hinglish : Rat
  english : Rat
deriving DecidableEq, Repr

/-- The result record of `detect_language` (the free-text `details`/`method`
diagnostics are omitted; no claim or downstream consumer reads them). -/
structure LanguageResult where
  primary_language : String
  confidence : Rat
  scores : Scores
deriving DecidableEq, Repr

/-- `bool(re.search(r'[ऀ-ॿ]', text))` — some character lies in
U+0900–U+097F. -/
def hasDevanagariChar (text : String) : Bool := text.data.any isDevanagari

/-- `bool(re.search(r'[a-zA-Z]', text))`. -/
def hasLatinChar (text : String) : Bool := text.data.any isLatinLetter

/-- `len(re.findall(r'[ऀ-ॿ]', text))` — a single-character class matches
once per qualifying character. -/
def devanagariCount (text : String) : Nat := text.data.countP isDevanagari

/-- `self.hindi_devanagari_patterns`, in source order (lines 28–32). -/
def hindi_devanagari_patterns : List RE := [
  -- [ऀ-ॿ]+  (maximal Devanagari runs)
  rplus (RE.cls isDevanagari),
  -- (विषय|यात्रा|पूछताछ|वयस्क|बच्चे|नमस्ते|धन्यवाद)
  ralt [rstr "विषय", rstr "यात्रा", rstr "पूछताछ", rstr "वयस्क", rstr "बच्चे",
    rstr "नमस्ते", rstr "धन्यवाद"],
  -- (के\s+लिए|की\s+यात्रा|में|से|तक|और|या)
  ralt [rcat [rstr "के", rws1, rstr "लिए"], rcat [rstr "की", rws1, rstr "यात्रा"],
    rstr "में", rstr "से", rstr "तक", rstr "और", rstr "या"]]

/-- `\b(alternatives)\b` -/
def rbalt (l : List String) : RE := rcat [RE.bnd, ralt (l.map rstr), RE.bnd]

/-- `\b(w1\s+w2)\b`-style alternative with inner whitespace. -/
def rphrase (w1 w2 : String) : RE := rcat [rstr w1, rws1, rstr w2]

/-- `self.hindi_english_patterns` (lines 35–42). -/
def hindi_english_patterns : List RE := [
  rbalt ["namaste", "namaskar", "dhanyawad", "shukriya"],
  rbalt ["yatra", "safar", "ghumna", "jana"],
  rbalt ["vyakti", "log", "bachhe", "vyask"],
  rcat [RE.bnd, ralt [rphrase "ke" "liye", rphrase "ki" "yatra", rstr "mein",
    rstr "se", rstr "tak", rstr "aur"], RE.bnd],
  rbalt ["paisa", "rupaye", "budget", "kharcha"],
  rbalt ["hotel", "resort", "ghar", "jagah"]]

/-- `self.hinglish_patterns` (lines 45–52). -/
def hinglish_patterns : List RE := [
  rcat [RE.bnd, ralt [rphrase "ke" "liye", rstr "chahiye", rstr "chahta",
    rstr "hai", rstr "hain"], RE.bnd],
  rbalt ["hamare", "humara", "client", "log", "pax"],
  rcat [RE.bnd, ralt [rphrase "jana" "chahta", rphrase "trip" "chahiye",
    rcat [rstr "ke", rws1, rstr "liye", rws1, rstr "trip"]], RE.bnd],
  rbalt ["jisme", "including", "aur", "and"],
  rbalt ["se", "from", "tak", "to", "between"],
  rbalt ["dobara", "again", "update", "send"]]

/-- `self.english_patterns` (lines 55–60). -/
def english_patterns : List RE := [
  rbalt ["hope", "well", "client", "planning", "departing", "preferred"],
  rbalt ["adults", "children", "travelers", "travellers", "nights", "days"],
  rbalt ["hotel", "resort", "activities", "flights", "budget", "special"],
  rbalt ["request", "regards", "thanks", "kindly", "please"]]

/-- `self.language_markers` (lines 63–76). -/
def hindi_markers : List String := ["नमस्ते", "नमस्कार", "धन्यवाद", "कृपया", "विषय"]

def hindi_english_markers : List String :=
  ["namaste", "namaskar", "dhanyawad", "shukriya", "vishay"]

def hinglish_markers : List String :=
  ["hamare client", "ke liye", "chahiye", "jana chahta", "dobara"]

def english_markers : List String :=
  ["hope you", "doing well", "regards", "thanks", "kindly"]

/-- Marker contribution: `weight` per marker contained in `text`. -/
def markerScore (markers : List String) (text : String) (weight : Rat) : Rat :=
  markers.foldl (fun acc m => if strContains text m then acc + weight else acc) 0

/-- Pattern contribution: `len(findall) * weight` summed over `pats`. -/
def patternScore (pats : List RE) (text : String) (weight : Rat) : Rat :=
  pats.foldl (fun acc p => acc + (reCount p text : Rat) * weight) 0

/-- `calculate_hindi_score` (lines 113–133); the Devanagari patterns and
markers are checked against the original (non-lowered) text, as in the
source. -/
def calculate_hindi_score (text : String) : Rat :=
  let devChars := devanagariCount text
  let s0 : Rat :=
    if 0 < devChars then min (8/10) ((devChars : Rat) / (text.length : Rat) * 2)
    else 0
  let s1 := s0 + markerScore hindi_markers text (15/100)
  let s2 := s1 + patternScore hindi_devanagari_patterns text (1/10)
  min 1 s2

/-- `calculate_hindi_english_score` (lines 135–153). -/
def calculate_hindi_english_score (textLower : String) : Rat :=
  let s1 := markerScore hindi_english_markers textLower (2/10)
  let s2 := s1 + patternScore hindi_english_patterns textLower (15/100)
  let s3 :=
    if strContains textLower "ke liye" && strContains textLower "yatra" then
      s2 + 3/10
    else s2
  min 1 s3

/-- `calculate_hinglish_score` (lines 155–177). -/
def calculate_hinglish_score (textLower : String) : Rat :=
  let s1 := markerScore hinglish_markers textLower (2/10)
  let s2 := s1 + patternScore hinglish_patterns textLower (15/100)
  let englishWords :=
    reCount (rbalt ["client", "trip", "hotel", "budget", "send", "update"]) textLower
  let hindiWords :=
    reCount (rbalt ["hamare", "chahiye", "ke", "liye", "aur", "dobara"]) textLower
  let s3 := if 0 < englishWords && 0 < hindiWords then s2 + 4/10 else s2
  min 1 s3

/-- `calculate_english_score` (lines 179–206). -/
def calculate_english_score (textLower : String) : Rat :=
  let s1 := markerScore english_markers textLower (15/100)
  let s2 := s1 + patternScore english_patterns textLower (1/10)
  let formal : List RE := [
    rcat [rstr "hope", rws1, rstr "you", rany, rstr "well"],
    rcat [rstr "kindly", rws1, rstr "send"],
    rcat [rstr "please", rws1, rwrd1],
    rcat [rstr "would", rws1, rstr "like", rws1, rstr "to"],
    rcat [rstr "we", rws1, rstr "are", rws1, rstr "planning"]]
  let s3 := formal.foldl (fun acc p => if reTest p textLower then acc + 2/10 else acc) s2
  min 1 s3

/-- Python `max(scores.keys(), key=lambda k: scores[k])`: iterate the dict
in insertion order, replacing the current best only on a strictly greater
score. -/
def primaryOf (s : Scores) : String :=
  let best := ("hindi", s.hindi)
  let best := if best.2 < s.hindi_english then ("hindi_english", s.hindi_english) else best
  let best := if best.2 < s.hinglish then ("hinglish", s.hinglish) else best
  let best := if best.2 < s.english then ("english", s.english) else best
  best.1

/-- `scores[name]` lookup. -/
def scoreOf (s : Scores) (name : String) : Rat :=
  if name = "hindi" then s.hindi
  else if name = "hindi_english" then s.hindi_english
  else if name = "hinglish" then s.hinglish
  else s.english

/-- Remove the first occurrence of `x`. -/
def removeFirst (x : Rat) : List Rat → List Rat
  | [] => []
  | a :: rest => if a = x then rest else a :: removeFirst x rest

/-- Largest and second-largest value of the four scores
(`sorted(scores.items(), key=..., reverse=True)[0/1]`; only the values of
the two leading entries are read by the source). -/
def topTwo (s : Scores) : Rat × Rat :=
  let vals := [s.hindi, s.hindi_english, s.hinglish, s.english]
  let m1 := vals.foldl max s.hindi
  let rest := removeFirst m1 vals
  let m2 := rest.foldl max ((rest.headD 0))
  (m1, m2)

/-- `enhance_detection` (lines 208–261), returning the final
(language, confidence) pair; the `details` strings are diagnostics only. -/
def enhance_detection (text : String) (primary : String) (s : Scores) :
    String × Rat :=
  let hasDev := hasDevanagariChar text
  let hasEng := hasLatinChar text
  let confidence := scoreOf s primary
  let (language, confidence) :=
    if hasDev && hasEng then
      if primary = "hindi" && 7/10 < confidence then (primary, confidence)
      else ("hinglish", max (8/10) s.hinglish)
    else if hasDev && !hasEng then
      ("hindi", max (9/10) s.hindi)
    else if !hasDev && hasEng then
      if 5/10 < s.hinglish then ("hinglish", s.hinglish)
      else if 4/10 < s.hindi_english then ("hindi_english", s.hindi_english)
      else ("english", max (8/10) s.english)
    else (primary, confidence)
  let confidence :=
    if confidence < 6/10 then
      let (m1, m2) := topTwo s
      -- `len(sorted_scores) > 1` always holds (four entries)
      if m1 - m2 < 2/10 then max (7/10) confidence else confidence
    else confidence
  (language, min (99/100) confidence)

/-- `detect_language` (lines 78–111). -/
def detect_language (text : String) : LanguageResult :=
  let textLower := lowerStr text
  let scores : Scores :=
    { hindi := calculate_hindi_score text
      hindi_english := calculate_hindi_english_score textLower
      hinglish := calculate_hinglish_score textLower
      english := calculate_english_score textLower }
  let primary := primaryOf scores
  let (language, confidence) := enhance_detection text primary scores
  { primary_language := language, confidence := confidence, scores := scores }

end LangDetect

/-!
## EnhancedNERExtractor — `New folder/modules2222/extractor.py`

Only the `_extract_duration` and `_extract_budget` routines are cited by
claims.  Inputs to these routines are taken lower-case (every theorem below
evaluates them on lower-case text; the transcription of the `re.IGNORECASE`
patterns therefore uses lower-case literals, except for the two inner
`re.search(r'(\d+)N.*?(\d+)D', ...)` calls, which the source runs *without*
`IGNORECASE` against an explicitly lower-cased match text and which are
transcribed with their upper-case literals exactly as written). -/

namespace NER

/-- A candidate value with its confidence. -/
structure Cand where
  value : String
  confidence : Rat
deriving DecidableEq, Repr

/-- `best_idx = confidence_scores.index(max(confidence_scores))`:
the first candidate holding the maximal confidence. -/
def pickBest (cands : List Cand) : Option (String × Rat) :=
  match cands with
  | [] => none
  | c :: rest =>
    let mx := rest.foldl (fun acc x => max acc x.confidence) c.confidence
    ((c :: rest).find? (fun x => x.confidence = mx)).map
      (fun x => (x.value, x.confidence))

/-- `self.patterns['duration']` with each pattern's static group count,
in source order (lines 54–63). -/
def duration_patterns : List (RE × Nat) := [
  -- (\d+)\s*nights?\s*/?(?:\s*(\d+)\s*days?)?
  (rcat [rgd 1, rws0, rstr "night", ropt (RE.lit 's'), rws0, ropt (RE.lit '/'),
    ropt (rcat [rws0, rgd 2, rws0, rstr "day", ropt (RE.lit 's')])], 2),
  -- (\d+)\s*days?\s*/?(?:\s*(\d+)\s*nights?)?
  (rcat [rgd 1, rws0, rstr "day", ropt (RE.lit 's'), rws0, ropt (RE.lit '/'),
    ropt (rcat [rws0, rgd 2, rws0, rstr "night", ropt (RE.lit 's')])], 2),
  -- (\d+)N\s*/?\s*(\d+)D   (IGNORECASE; lower-case text)
  (rcat [rgd 1, RE.lit 'n', rws0, ropt (RE.lit '/'), rws0, rgd 2, RE.lit 'd'], 2),
  -- (\d+)D\s*/?\s*(\d+)N
  (rcat [rgd 1, RE.lit 'd', rws0, ropt (RE.lit '/'), rws0, rgd 2, RE.lit 'n'], 2),
  -- stay\s+(?:for\s+)?(\d+)\s*(?:nights?|days?)
  (rcat [rstr "stay", rws1, ropt (rcat [rstr "for", rws1]), rgd 1, rws0,
    ralt [rcat [rstr "night", ropt (RE.lit 's')],
      rcat [rstr "day", ropt (RE.lit 's')]]], 1),
  -- (\d+)\s*(?:रात|रातें|दिन)
  (rcat [rgd 1, rws0, ralt [rstr "रात", rstr "रातें", rstr "दिन"]], 1),
  -- (\d+)\s*night\s*(\d+)\s*day
  (rcat [rgd 1, rws0, rstr "night", rws0, rgd 2, rws0, rstr "day"], 2),
  -- (\d+)\s*दिन\s*(\d+)\s*रात
  (rcat [rgd 1, rws0, rstr "दिन", rws0, rgd 2, rws0, rstr "रात"], 2)]

/-- The inner `re.search(r'(\d+)N.*?(\d+)D', matched_text)` test of
`_extract_duration` — run without `IGNORECASE` on a lower-cased text, so
transcribed with the upper-case literals as written. -/
def rNDinner : RE := rcat [rgd 1, RE.lit 'N', ranyl, rgd 2, RE.lit 'D']

/-- The inner `re.search(r'(\d+)D.*?(\d+)N', matched_text)` test. -/
def rDNinner : RE := rcat [rgd 1, RE.lit 'D', ranyl, rgd 2, RE.lit 'N']

/-- Per-match body of `_extract_duration`'s loop (lines 315–348).  `nGroups`
is the pattern's group count; an access to `groups[1]` on a one-group pattern
raises `IndexError`, which the source's `except` clause turns into
`continue` (modelled as `none`). -/
def durationFromMatch (nGroups : Nat) (m : RMatch) : Option Cand :=
  match m.grp 1 with
  | none => none
  | some g1 =>
    if subIn "night" m then
      -- days = int(groups[1]) if groups[1] else nights + 1
      if nGroups < 2 then none
      else
        let nights := parseNatDigits g1
        let days := match m.grp 2 with
          | some g2 => parseNatDigits g2
          | none => nights + 1
        some ⟨Extractor.mkDuration nights days, 95/100⟩
    else if subIn "day" m then
      let days := parseNatDigits g1
      -- nights = max(1, days - 1) if days > 1 else 0
      let nights := if 1 < days then max 1 (days - 1) else 0
      some ⟨Extractor.mkDuration nights days, 9/10⟩
    else if reTest rNDinner (String.mk m.matched) then
      if nGroups < 2 then none
      else
        match m.grp 2 with
        | none => none
        | some g2 => some ⟨Extractor.mkDuration (parseNatDigits g1) (parseNatDigits g2), 95/100⟩
    else if reTest rDNinner (String.mk m.matched) then
      if nGroups < 2 then none
      else
        match m.grp 2 with
        | none => none
        | some g2 => some ⟨Extractor.mkDuration (parseNatDigits g2) (parseNatDigits g1), 95/100⟩
    else
      -- duration = f"{num-1} nights / {num} days" (Python int subtraction)
      let num := parseNatDigits g1
      some ⟨toString ((num : Int) - 1) ++ " nights / " ++ toString num ++ " days", 7/10⟩

/-- `_extract_duration` (lines 307–370): all candidates over all patterns,
then the first highest-confidence one. -/
def extract_duration_ner (text : String) : Option (String × Rat) :=
  pickBest ((duration_patterns.map (fun pn =>
    (reFindIter pn.1 text).filterMap (durationFromMatch pn.2))).flatten)

/-- `Rs\.?|INR|₹|rupees?|रुपए|रुपये` (currency marker of the budget
patterns; lower-case text under `IGNORECASE`). -/
def rCurrency : RE :=
  ralt [rcat [rstr "rs", ropt (RE.lit '.')], rstr "inr", rstr "₹",
    rcat [rstr "rupee", ropt (RE.lit 's')], rstr "रुपए", rstr "रुपये"]

/-- Same marker without `रुपये` (patterns 2–6 use a shorter list). -/
def rCurrencyShort : RE :=
  ralt [rcat [rstr "rs", ropt (RE.lit '.')], rstr "inr", rstr "₹",
    rcat [rstr "rupee", ropt (RE.lit 's')], rstr "रुपए"]

/-- `([\d,]+)` as group 1. -/
def rAmountDC : RE := RE.grp 1 (rplus (RE.cls (fun c => pyDigit c || c = ',')))

/-- `(?:per\s+person|pp|each|प्रति\s+व्यक्ति)` -/
def rPerPerson : RE :=
  ralt [rcat [rstr "per", rws1, rstr "person"], rstr "pp", rstr "each",
    rcat [rstr "प्रति", rws1, rstr "व्यक्ति"]]

/-- `(?:rupees?|Rs\.?|रुपए)?` (trailing currency of the shorthand
patterns). -/
def rTrailCurrency : RE :=
  ropt (ralt [rcat [rstr "rupee", ropt (RE.lit 's')],
    rcat [rstr "rs", ropt (RE.lit '.')], rstr "रुपए"])

/-- `self.patterns['budget']`, in source order (lines 41–51). -/
def budget_patterns : List RE := [
  -- budget.*?(?:currency)\s*([\d,]+)(?:\.\d{2})?(?:\s*(?:per-person))?
  rcat [rstr "budget", ranyl, rCurrency, rws0, rAmountDC,
    ropt (rcat [RE.lit '.', RE.cls pyDigit, RE.cls pyDigit]),
    ropt (rcat [rws0, rPerPerson])],
  -- (?:currency)\s*([\d,]+)(?:\.\d{2})?\s*(?:per-person)
  rcat [rCurrencyShort, rws0, rAmountDC,
    ropt (rcat [RE.lit '.', RE.cls pyDigit, RE.cls pyDigit]), rws0, rPerPerson],
  -- around\s+(?:currency)\s*([\d,]+)
  rcat [rstr "around", rws1, rCurrencyShort, rws0, rAmountDC],
  -- approx\.?\s+(?:currency)\s*([\d,]+)
  rcat [rstr "approx", ropt (RE.lit '.'), rws1, rCurrencyShort, rws0, rAmountDC],
  -- maximum\s+(?:currency)\s*([\d,]+)
  rcat [rstr "maximum", rws1, rCurrencyShort, rws0, rAmountDC],
  -- within\s+(?:currency)\s*([\d,]+)
  rcat [rstr "within", rws1, rCurrencyShort, rws0, rAmountDC],
  -- (\d+)\s*(?:lakh|lakhs?|लाख)\s*(?:rupees?|Rs\.?|रुपए)?
  rcat [rgd 1, rws0, ralt [rstr "lakh", rcat [rstr "lakh", ropt (RE.lit 's')],
    rstr "लाख"], rws0, rTrailCurrency],
  -- (\d+)\s*(?:thousand|k|हजार)\s*(?:rupees?|Rs\.?|रुपए)?
  rcat [rgd 1, rws0, ralt [rstr "thousand", rstr "k", rstr "हजार"], rws0,
    rTrailCurrency],
  -- (\d+)\s*(?:crore|करोड़)\s*(?:rupees?|Rs\.?|रुपए)?
  rcat [rgd 1, rws0, ralt [rstr "crore", rstr "करोड़"], rws0, rTrailCurrency]]

/-- Shorthand-multiplier normalization of `_extract_budget` (lines 257–269):
`lakh`-family ×100,000, then `crore`-family ×10,000,000, then
`thousand`/`k`-family ×1,000, applied to the comma-stripped amount. -/
def budgetAmountOf (matched : List Char) (amountStr : List Char) : Nat :=
  let n := parseNatDropCommas amountStr
  if containsSub "lakh".data matched || containsSub "lakhs".data matched ||
      containsSub "लाख".data matched then n * 100000
  else if containsSub "crore".data matched || containsSub "करोड़".data matched then
    n * 10000000
  else if containsSub "thousand".data matched || containsSub "k".data matched ||
      containsSub "हजार".data matched then n * 1000
  else n

/-- Confidence assignment of `_extract_budget` (lines 274–283): a "per
person" qualifier in the matched phrase gives 0.95, a `budget` keyword 0.9,
anything else 0.8. -/
def budgetConfidenceOf (matched : List Char) : Rat :=
  if containsSub "per person".data matched || containsSub "pp".data matched ||
      containsSub "each".data matched ||
      containsSub "प्रति व्यक्ति".data matched then 95/100
  else if containsSub "budget".data matched then 9/10
  else 8/10

/-- Per-match body of `_extract_budget`'s loop (lines 252–287);
`int('')` after comma-stripping an amount with no digits raises and the
match is skipped. -/
def budgetFromMatch (m : RMatch) : Option Cand :=
  match m.grp 1 with
  | none => none
  | some g1 =>
    if (g1.filter (fun c => c ≠ ',')).isEmpty then none
    else some ⟨"₹" ++ commaFormat (budgetAmountOf m.matched g1),
      budgetConfidenceOf m.matched⟩

/-- All budget candidates collected by `_extract_budget`'s pattern loop. -/
def budgetCands (text : String) : List Cand :=
  (budget_patterns.map (fun p =>
    (reFindIter p text).filterMap budgetFromMatch)).flatten

/-- `_extract_budget` (lines 244–305). -/
def extract_budget_ner (text : String) : Option (String × Rat) :=
  pickBest (budgetCands text)

end NER

/-!
## Aggregator — `src/o2.py`, class `OptimizedTravelAgentProcessor`

The classifier and language-detector modules imported by `o2.py`
(`modules/optimized_classifier.py`, `modules/optimized_language_detector.py`)
are not present under `modules/`; the claims cite the copies transcribed
above, whose result-dict surface (`type`/`confidence`, `primary_language`/
`confidence`) is what `o2.py` consumes.

Python's ad hoc nested dicts are modelled as records; truthiness of a dict
slot is modelled by the `truthy…` helpers, and the completeness computation
— whose branching is literally about dict emptiness and value truthiness —
goes through an explicit Python-value model `PyVal`.

Time-derived parts (`inquiry_id`'s timestamp/hash, `processed_at`, the
`ERROR_<time>` identifier) are omitted: the spec isolates them from all
deterministic behavior, and no claim reads them.
-/

namespace O2

/-- One email record: `{subject, body, sender}`. -/
structure EmailData where
  subject : String
  body : String
  sender : String
deriving DecidableEq, Repr

/-- Python truthiness of an optional int slot. -/
def truthyN (o : Option Nat) : Bool :=
  match o with
  | none => false
  | some n => !(n = 0)

/-- Python truthiness of an optional string slot. -/
def truthyS (o : Option String) : Bool :=
  match o with
  | none => false
  | some s => !(s = "")

/-- The `results` dict of `extract_all_fields`
(`modules/optimized_extractor.py` lines 242–258), as consumed by `o2.py`. -/
structure ExtractedFields where
  start_date : Option String
  end_date : Option String
  num_adults : Option Nat
  num_children : Option Nat
  total_travellers : Option Nat
  departure_city : Option String
  destinations : List String
  total_duration : Option String
  hotel_preferences : Option String
  meal_preferences : Option String
  activities : List String
  needs_flight : Option Bool
  total_budget : Option String
  special_requirements : Option String
  deadline : Option String
deriving DecidableEq, Repr

/-- An all-`None` field record (used to fill slots irrelevant to a
computation; `o2.py` reads every slot defensively via `.get`). -/
def emptyFields : ExtractedFields :=
  ⟨none, none, none, none, none, none, [], none, none, none, [], none, none,
   none, none⟩

/-- `[\w\.-]` — the character class of the email regex. -/
def emailLocalChar (c : Char) : Bool := pyWord c || c = '.' || c = '-'

/-- `[\w\.-]+@[\w\.-]+\.\w+` (the email regex of
`extract_customer_details`). -/
def emailRE : RE :=
  rcat [rplus (RE.cls emailLocalChar), RE.lit '@', rplus (RE.cls emailLocalChar),
    RE.lit '.', rplus (RE.cls pyWord)]

/-- The customer contact block. -/
structure CustomerDetails where
  email : String
  name : String
  raw_sender : String
deriving DecidableEq, Repr

/-- `extract_customer_details` (lines 121–140). -/
def extract_customer_details (e : EmailData) : CustomerDetails :=
  let sender := e.sender
  let email :=
    match reSearchMatch emailRE sender with
    | some m => String.mk m.matched
    | none => sender
  let name :=
    if strContains sender "<" then
      -- sender.split('<')[0].strip()
      stripStr ⟨takeUntilChar '<' sender.data⟩
    else if strContains sender "@" then
      -- sender.split('@')[0].replace('.', ' ').title()
      titleStr ⟨(takeUntilChar '@' sender.data).map
        (fun c => if c = '.' then ' ' else c)⟩
    else "Unknown"
  ⟨email, name, sender⟩

/-- The date/duration block. -/
structure DateDetails where
  start_date : Option String
  end_date : Option String
  duration : Option String
  has_specific_dates : Bool
deriving DecidableEq, Repr

/-- `structure_date_details` (lines 142–149). -/
def structure_date_details (f : ExtractedFields) : DateDetails :=
  ⟨f.start_date, f.end_date, f.total_duration,
   truthyS f.start_date || truthyS f.end_date⟩

/-- The traveler block. -/
structure TravelerDetails where
  total_travelers : Option Nat
  adults : Option Nat
  children : Option Nat
  breakdown_available : Bool
deriving DecidableEq, Repr

/-- `structure_traveler_details` (lines 151–166).  `children or 0` agrees
with `getD 0` on every case (`None`, `0`, positive). -/
def structure_traveler_details (f : ExtractedFields) : TravelerDetails :=
  let adults := f.num_adults
  let children := f.num_children
  let total := f.total_travellers
  -- if not total and adults is not None: total = adults + (children or 0)
  let total :=
    if !truthyN total && adults.isSome then
      some (adults.getD 0 + children.getD 0)
    else total
  ⟨total, adults, children, adults.isSome⟩

/-- The location block.  The `legs` key is added only on the `MULTI_LEG`
path (`create_destination_legs`); it is omitted here: it extends an already
non-empty dict and no claim reads it. -/
structure LocationDetails where
  all_destinations : List String
  destination_count : Nat
  primary_destination : Option String
deriving DecidableEq, Repr

/-- `structure_location_details` (lines 168–182), minus the `legs` key. -/
def structure_location_details (f : ExtractedFields) : LocationDetails :=
  ⟨f.destinations, f.destinations.length, f.destinations.head?⟩

/-- The preference block. -/
structure PreferenceDetails where
  hotel : Option String
  meals : Option String
  activities : List String
  flight_required : Option Bool
  special_requirements : Option String
  has_preferences : Bool
deriving DecidableEq, Repr

/-- `structure_preference_details` (lines 282–295). -/
def structure_preference_details (f : ExtractedFields) : PreferenceDetails :=
  ⟨f.hotel_preferences, f.meal_preferences, f.activities, f.needs_flight,
   f.special_requirements,
   truthyS f.hotel_preferences || truthyS f.meal_preferences ||
     !f.activities.isEmpty⟩

/-- The budget block. -/
structure BudgetDetails where
  amount : Option String
  currency : String
  is_per_person : Bool
  budget_provided : Bool
deriving DecidableEq, Repr

/-- `structure_budget_details` (lines 297–306). -/
def structure_budget_details (f : ExtractedFields) : BudgetDetails :=
  let budget := f.total_budget
  ⟨budget,
   if truthyS budget && strContains (budget.getD "") "₹" then "INR"
   else "Not specified",
   truthyS budget && strContains (lowerStr (budget.getD "")) "per person",
   truthyS budget⟩

/-- The modification block. -/
structure ModificationDetails where
  changes : List String
  requires_quote_update : Bool
  urgency : String
deriving DecidableEq, Repr

/-- `extract_modification_details` (lines 308–331). -/
def extract_modification_details (e : EmailData) : ModificationDetails :=
  let body := lowerStr e.body
  let has (w : String) : Bool := strContains body w
  let changes : List String :=
    (if has "add" && has "dinner" then ["Add Indian-style dinners to itinerary"] else []) ++
    -- 'increasing the number' in body or 'add' in body and ('traveler' in
    -- body or 'person' in body)  — Python precedence: A or (B and C)
    (if has "increasing the number" ||
        (has "add" && (has "traveler" || has "person")) then
      ["Increase number of travelers"] else []) ++
    (if has "dates" && has "change" then ["Change travel dates"] else []) ++
    (if has "hotel" && (has "change" || has "upgrade") then
      ["Modify hotel preferences"] else [])
  ⟨if changes.isEmpty then ["General modifications requested"] else changes,
   true,
   if has "asap" || has "urgent" || has "tomorrow" then "high" else "normal"⟩

/-- The structured-inquiry record built by `structure_extracted_data`
(lines 95–119); `processed_at` omitted (time-derived). -/
structure StructuredData where
  inquiry_id : String
  inquiry_type : Classifier.Classification
  language_info : LangDetect.LanguageResult
  customer_details : CustomerDetails
  date_details : DateDetails
  traveler_details : TravelerDetails
  location_details : LocationDetails
  preference_details : PreferenceDetails
  budget_details : BudgetDetails
  departure_city : Option String
  deadline : Option String
  modification_details : Option ModificationDetails
deriving DecidableEq, Repr

/-- `structure_extracted_data` (lines 95–119). -/
def structure_extracted_data (f : ExtractedFields)
    (classification : Classifier.Classification)
    (language : LangDetect.LanguageResult) (e : EmailData) (iid : String) :
    StructuredData :=
  { inquiry_id := iid
    inquiry_type := classification
    language_info := language
    customer_details := extract_customer_details e
    date_details := structure_date_details f
    traveler_details := structure_traveler_details f
    location_details := structure_location_details f
    preference_details := structure_preference_details f
    budget_details := structure_budget_details f
    departure_city := f.departure_city
    deadline := f.deadline
    modification_details :=
      if classification.type = Classifier.InquiryType.modification then
        some (extract_modification_details e)
      else none }

/-- `extract_destinations_from_subject`'s known-destination list
(lines 366–369). -/
def known_destinations : List String := [
  "bali", "singapore", "dubai", "maldives", "goa", "kerala", "thailand",
  "malaysia", "japan", "europe", "usa", "canada", "australia"]

/-- `extract_destinations_from_subject` (lines 360–375). -/
def extract_destinations_from_subject (subject : String) : List String :=
  let sl := lowerStr subject
  known_destinations.filterMap (fun d =>
    if strContains sl d then some (titleStr d) else none)

/-! ### The Python-value model used by the completeness score -/

/-- A model of the Python values stored in the structured dict, for the
truthiness tests of `calculate_completeness_score`. -/
inductive PyVal where
  | vnone : PyVal
  | vbool : Bool → PyVal
  | vnat : Nat → PyVal
  | vrat : Rat → PyVal
  | vstr : String → PyVal
  | vlist : List PyVal → PyVal
  | vdict : List (String × PyVal) → PyVal

/-- Python truthiness. -/
def pyTruthy : PyVal → Bool
  | .vnone => false
  | .vbool b => b
  | .vnat n => !(n = 0)
  | .vrat q => !(q = 0)
  | .vstr s => !(s = "")
  | .vlist l => !l.isEmpty
  | .vdict l => !l.isEmpty

/-- `v not in [None, '', [], {}]` (Python `==` never identifies a bool/int
with any of the four excluded values except via falsiness already covered
by `pyTruthy`). -/
def pyNotExcluded : PyVal → Bool
  | .vnone => false
  | .vstr s => !(s = "")
  | .vlist l => !l.isEmpty
  | .vdict l => !l.isEmpty
  | _ => true

/-- Optional-int slot as a Python value. -/
def pvN (o : Option Nat) : PyVal :=
  match o with
  | none => .vnone
  | some n => .vnat n

/-- Optional-string slot as a Python value. -/
def pvS (o : Option String) : PyVal :=
  match o with
  | none => .vnone
  | some s => .vstr s

/-- Optional-bool slot as a Python value. -/
def pvB (o : Option Bool) : PyVal :=
  match o with
  | none => .vnone
  | some b => .vbool b

/-- The `inquiry_type` dict (classifier result surface). -/
def pyClassification (c : Classifier.Classification) : PyVal :=
  .vdict [("type", .vstr (match c.type with
      | .single_leg => "single_leg"
      | .multi_leg => "multi_leg"
      | .modification => "modification")),
    ("confidence", .vrat c.confidence), ("method", .vstr c.method)]

/-- The `language_info` dict (detector result surface). -/
def pyLanguage (l : LangDetect.LanguageResult) : PyVal :=
  .vdict [("primary_language", .vstr l.primary_language),
    ("confidence", .vrat l.confidence),
    ("scores", .vdict [("hindi", .vrat l.scores.hindi),
      ("hindi_english", .vrat l.scores.hindi_english),
      ("hinglish", .vrat l.scores.hinglish),
      ("english", .vrat l.scores.english)])]

/-- The `customer_details` dict. -/
def pyCustomer (c : CustomerDetails) : PyVal :=
  .vdict [("email", .vstr c.email), ("name", .vstr c.name),
    ("raw_sender", .vstr c.raw_sender)]

/-- The `date_details` dict. -/
def pyDate (d : DateDetails) : PyVal :=
  .vdict [("start_date", pvS d.start_date), ("end_date", pvS d.end_date),
    ("duration", pvS d.duration),
    ("has_specific_dates", .vbool d.has_specific_dates)]

/-- The `traveler_details` dict. -/
def pyTraveler (t : TravelerDetails) : PyVal :=
  .vdict [("total_travelers", pvN t.total_travelers), ("adults", pvN t.adults),
    ("children", pvN t.children),
    ("breakdown_available", .vbool t.breakdown_available)]

/-- The `location_details` dict. -/
def pyLocation (l : LocationDetails) : PyVal :=
  .vdict [("all_destinations", .vlist (l.all_destinations.map .vstr)),
    ("destination_count", .vnat l.destination_count),
    ("primary_destination", pvS l.primary_destination)]

/-- The `preference_details` dict. -/
def pyPreference (p : PreferenceDetails) : PyVal :=
  .vdict [("hotel", pvS p.hotel), ("meals", pvS p.meals),
    ("activities", .vlist (p.activities.map .vstr)),
    ("flight_required", pvB p.flight_required),
    ("special_requirements", pvS p.special_requirements),
    ("has_preferences", .vbool p.has_preferences)]

/-- The `budget_details` dict. -/
def pyBudget (b : BudgetDetails) : PyVal :=
  .vdict [("amount", pvS b.amount), ("currency", .vstr b.currency),
    ("is_per_person", .vbool b.is_per_person),
    ("budget_provided", .vbool b.budget_provided)]

/-- `calculate_completeness_score` (lines 377–404): 12 points per truthy
required group, 13.33 per optional group holding a meaningful value
(`any(v for v in field_data.values() if v not in [None, '', [], {}])`:
some value both outside the excluded list and truthy), capped at 100. -/
def calculate_completeness_score (d : StructuredData) : Rat :=
  let requiredVals : List PyVal :=
    [pyClassification d.inquiry_type, pyLanguage d.language_info,
     pyCustomer d.customer_details, pyLocation d.location_details,
     pyTraveler d.traveler_details]
  let score : Rat := requiredVals.foldl
    (fun acc v => if pyTruthy v then acc + 12 else acc) 0
  let optionalVals : List PyVal :=
    [pyDate d.date_details, pyPreference d.preference_details,
     pyBudget d.budget_details]
  let score : Rat := optionalVals.foldl
    (fun acc v =>
      match v with
      | .vdict kvs =>
        if kvs.any (fun kv => pyNotExcluded kv.2 && pyTruthy kv.2) then
          acc + 1333/100
        else acc
      | _ => acc) score
  min 100 score

/-- `validate_and_enhance_data` (lines 333–358): traveler-total
reconciliation, subject-line destination retry, completeness score.  The
`body` parameter of the source is unused by its code and omitted. -/
def validate_and_enhance_data (d : StructuredData) (subject : String) :
    StructuredData × Rat :=
  let td := d.traveler_details
  let td :=
    if truthyN td.adults && td.children.isSome then
      -- calculated_total = adults + children
      let calculated := td.adults.getD 0 + td.children.getD 0
      if truthyN td.total_travelers && td.total_travelers ≠ some calculated then
        { td with
          total_travelers := some (max (td.total_travelers.getD 0) calculated) }
      else td
    else td
  let ld := d.location_details
  let ld :=
    if ld.destination_count = 0 then
      let sd := extract_destinations_from_subject subject
      if !sd.isEmpty then ⟨sd, sd.length, sd.head?⟩ else ld
    else ld
  let d := { d with traveler_details := td, location_details := ld }
  (d, calculate_completeness_score d)

/-- The error record of `create_error_response` (lines 406–415); the
`ERROR_<time>` identifier and `processed_at` are time-derived and omitted. -/
structure ErrorResponse where
  error : Bool
  error_message : String
  customer_details : CustomerDetails
  completeness_score : Rat
deriving DecidableEq, Repr

/-- `create_error_response` (lines 406–415). -/
def create_error_response (e : EmailData) (msg : String) : ErrorResponse :=
  ⟨true, msg, extract_customer_details e, 0⟩

/-- What `process_inquiry` hands back: the validated structured record with
its completeness score, or the explicit error record. -/
inductive ProcessResult where
  | success : StructuredData × Rat → ProcessResult
  | failure : ErrorResponse → ProcessResult
deriving DecidableEq, Repr

/-- `process_inquiry` (lines 40–87).  The body of the `try` block — steps 1
to 5 over the email — is modelled as a function returning `Except String`:
an exception raised anywhere inside the `try` surfaces as `.error msg`, and
the `except` clause converts it via `create_error_response`; a normal
completion surfaces as `.ok`. -/
def process_inquiry (pipelineBody : EmailData → Except String (StructuredData × Rat))
    (e : EmailData) : ProcessResult :=
  match pipelineBody e with
  | .ok d => .success d
  | .error msg => .failure (create_error_response e msg)

end O2

/-!
## Concrete inputs used by the claims -/

/-- The spec's single-destination concrete scenario (empty subject). -/
def c4Email : O2.EmailData :=
  ⟨"", "We are 6 adults and 2 children planning 7 nights / 8 days to Thailand, budget around ₹45000 per person",
   "client@example.com"⟩

/-- `f"{subject} {body}".lower()` for the concrete scenario. -/
def c4Comb : String := lowerStr (c4Email.subject ++ " " ++ c4Email.body)

/-- An email whose extractor finds an explicit adults count of zero together
with a children count and a smaller explicit total. -/
def c2Email : O2.EmailData :=
  ⟨"", "0 adults and 5 children, 3 travelers", "client@example.com"⟩

/-- Its lower-cased combined text. -/
def c2Comb : String := lowerStr (c2Email.subject ++ " " ++ c2Email.body)

/-- The traveler-relevant slots of `extract_all_fields` followed by
`cross_validate_results` on the combined text (the remaining slots, which
the traveler structuring never reads, are left at their absent defaults). -/
def c2Fields : O2.ExtractedFields :=
  { O2.emptyFields with
    num_adults := Extractor.extract_adults c2Comb
    num_children := some (Extractor.extract_children c2Comb)
    total_travellers := Extractor.crossValidateTravelersTotal
      (Extractor.extract_adults c2Comb) (some (Extractor.extract_children c2Comb))
      (Extractor.extract_total_travelers c2Comb) }

/-- The aggregator's processing of that email (steps 2–5 of
`process_inquiry` on the extracted traveler fields). -/
def c2Data : O2.StructuredData × Rat :=
  O2.validate_and_enhance_data
    (O2.structure_extracted_data c2Fields
      (Classifier.classify_inquiry c2Email.body c2Email.subject)
      (LangDetect.detect_language (c2Email.subject ++ " " ++ c2Email.body))
      c2Email "INQ") c2Email.subject

/-- The spec's destination-exclusion input. -/
def c8Text : String := "departing from mumbai ... trip to goa"

/-- A pipeline body that raises at some stage (for exercising the
`except` boundary). -/
def failingStage : O2.EmailData → Except String (O2.StructuredData × Rat) :=
  fun _ => .error "stage exception"

/-- The email fed to the failing pipeline. -/
def c1Email : O2.EmailData :=
  ⟨"Travel Inquiry", "trip to Bali", "mark.henry@example.com"⟩

/-- A field record with a conflicting explicit total (adults 2, children 1,
total 5), for exercising the reconciliation step. -/
def c2wFields : O2.ExtractedFields :=
  { O2.emptyFields with
    num_adults := some 2
    num_children := some 1
    total_travellers := some 5 }

/-- A modification-subject email that also carries two destination-scoped
preference sections (so it would classify multi-leg but for the priority). -/
def c3Subject : String := "re: trip"

/-- Its body: two distinct `for <place>, we ... like <N nights>` sections. -/
def c3Body : String := "for goa, we like 3 nights for bali, we like 2 nights"

/-!
## Theorems -/

/-- Membership after the fold behind `pyListSet` comes from the accumulator
or the list. -/
theorem mem_pyListSet_aux (l : List String) (acc : List String) (x : String)
    (h : x ∈ l.foldl (fun acc s => if acc.contains s then acc else acc ++ [s]) acc) :
    x ∈ acc ∨ x ∈ l := by
  induction l generalizing acc with
  | nil => exact Or.inl h
  | cons a t ih =>
    simp only [List.foldl] at h
    rcases ih _ h with hin | hin
    · split_ifs at hin with hc
      · exact Or.inl hin
      · rcases List.mem_append.mp hin with hin2 | hin2
        · exact Or.inl hin2
        · simp only [List.mem_singleton] at hin2
          exact Or.inr (by simp [hin2])
    · exact Or.inr (List.mem_cons_of_mem _ hin)

/-- `pyListSet` only reorders/deduplicates: every member comes from the
input list. -/
theorem mem_of_mem_pyListSet (l : List String) (x : String)
    (h : x ∈ pyListSet l) : x ∈ l := by
  rcases mem_pyListSet_aux l [] x h with hin | hin
  · simp at hin
  · exact hin

/-- A match of a concatenation starts with a match of its first part. -/
theorem leadMatch_append_left (l1 l2 s : List Char)
    (h : leadMatch (l1 ++ l2) s = true) : leadMatch l1 s = true := by
  induction l1 generalizing s with
  | nil => rfl
  | cons a t ih =>
    cases s with
    | nil => simp [leadMatch] at h
    | cons b bs =>
      simp only [List.cons_append, leadMatch, Bool.and_eq_true] at h ⊢
      exact ⟨h.1, ih bs h.2⟩

/-- Substring containment is antitone in the needle: if `l1 ++ l2` occurs,
so does `l1`. -/
theorem containsSub_append_left (l1 l2 s : List Char)
    (h : containsSub (l1 ++ l2) s = true) : containsSub l1 s = true := by
  induction s with
  | nil =>
    simp only [containsSub] at h ⊢
    exact leadMatch_append_left _ _ _ h
  | cons c rest ih =>
    simp only [containsSub, Bool.or_eq_true] at h ⊢
    rcases h with h | h
    · exact Or.inl (leadMatch_append_left _ _ _ h)
    · exact Or.inr (ih h)

/-- Upper bound for the confidence fold of `pickBest`. -/
theorem foldl_max_le (l : List NER.Cand) (init q : Rat) (h0 : init ≤ q)
    (h : ∀ x ∈ l, x.confidence ≤ q) :
    l.foldl (fun acc x => max acc x.confidence) init ≤ q := by
  induction l generalizing init with
  | nil => exact h0
  | cons a t ih =>
    exact ih _ (max_le h0 (h a (List.mem_cons_self _ _)))
      (fun x hx => h x (List.mem_cons_of_mem _ hx))

/-- The confidence fold dominates its initial value. -/
theorem le_foldl_max_init (l : List NER.Cand) (init : Rat) :
    init ≤ l.foldl (fun acc x => max acc x.confidence) init := by
  induction l generalizing init with
  | nil => exact le_refl _
  | cons a t ih => exact le_trans (le_max_left _ _) (ih (max init a.confidence))

/-- The confidence fold dominates every member. -/
theorem le_foldl_max_mem (l : List NER.Cand) (init : Rat) (x : NER.Cand)
    (hx : x ∈ l) :
    x.confidence ≤ l.foldl (fun acc x => max acc x.confidence) init := by
  induction l generalizing init with
  | nil => simp at hx
  | cons a t ih =>
    rcases List.mem_cons.mp hx with rfl | hx2
    · exact le_trans (le_max_right _ _) (le_foldl_max_init t _)
    · exact ih _ hx2

/-- When `q` bounds all candidates and is attained, `pickBest` returns a
candidate carrying exactly `q`. -/
theorem pickBest_max (cands : List NER.Cand) (q : Rat)
    (hub : ∀ x ∈ cands, x.confidence ≤ q)
    (hex : ∃ x ∈ cands, x.confidence = q) :
    ∃ v, NER.pickBest cands = some (v, q) := by
  match cands with
  | [] => rcases hex with ⟨x, hx, _⟩; simp at hx
  | c :: rest =>
    have hmxle : rest.foldl (fun acc x => max acc x.confidence) c.confidence ≤ q :=
      foldl_max_le _ _ _ (hub c (List.mem_cons_self _ _))
        (fun x hx => hub x (List.mem_cons_of_mem _ hx))
    have hqle : q ≤ rest.foldl (fun acc x => max acc x.confidence) c.confidence := by
      rcases hex with ⟨x, hx, hxq⟩
      rcases List.mem_cons.mp hx with rfl | hx2
      · exact hxq ▸ le_foldl_max_init _ _
      · exact hxq ▸ le_foldl_max_mem _ _ _ hx2
    have hmx : rest.foldl (fun acc x => max acc x.confidence) c.confidence = q :=
      le_antisymm hmxle hqle
    have hfind : ((c :: rest).find? (fun x => x.confidence = q)).isSome := by
      rw [List.find?_isSome]
      rcases hex with ⟨x, hx, hxq⟩
      exact ⟨x, hx, by simp [hxq]⟩
    rcases Option.isSome_iff_exists.mp hfind with ⟨y, hy⟩
    have hyq : y.confidence = q := by
      have := List.find?_some hy
      simpa using this
    refine ⟨y.value, ?_⟩
    unfold NER.pickBest
    simp only [hmx, hy, Option.map_some', hyq]

/-- Every confidence `_extract_budget` assigns is at most 0.95. -/
theorem budgetConfidenceOf_le (m : List Char) :
    NER.budgetConfidenceOf m ≤ 95/100 := by
  unfold NER.budgetConfidenceOf
  split_ifs <;> norm_num

/-- Every budget candidate's confidence is at most 0.95. -/
theorem budgetCands_confidence_le (text : String) (x : NER.Cand)
    (hx : x ∈ NER.budgetCands text) : x.confidence ≤ 95/100 := by
  unfold NER.budgetCands at hx
  rcases List.mem_flatten.mp hx with ⟨l, hl, hxl⟩
  rcases List.mem_map.mp hl with ⟨p, hp, rfl⟩
  rcases List.mem_filterMap.mp hxl with ⟨m, hm, hfm⟩
  unfold NER.budgetFromMatch at hfm
  rcases hg : m.grp 1 with _ | g <;> rw [hg] at hfm
  · simp at hfm
  · dsimp only at hfm
    split_ifs at hfm
    rw [Option.some_inj] at hfm
    subst hfm
    exact budgetConfidenceOf_le _

/-- Every structured record scores at least 60: the five required groups
are always non-empty dicts, each worth 12 points. -/
theorem completeness_ge_sixty (d : O2.StructuredData) :
    60 ≤ O2.calculate_completeness_score d := by
  unfold O2.calculate_completeness_score
  simp only [O2.pyClassification, O2.pyLanguage, O2.pyCustomer, O2.pyLocation,
    O2.pyTraveler, O2.pyDate, O2.pyPreference, O2.pyBudget, O2.pyTruthy,
    List.foldl, List.isEmpty]
  norm_num
  split_ifs <;> norm_num

/-- C1: for every email record and every behavior of the pipeline stages,
`process_inquiry` never propagates an exception: a normal completion is
returned as-is, and a raise at any stage is converted at the boundary into
the explicit error record — error flag set, the exception's message, the
customer identification extracted from the sender, completeness 0. -/
theorem C1_pipeline_error_containment
    (pipelineBody : O2.EmailData → Except String (O2.StructuredData × Rat))
    (e : O2.EmailData) :
    (∀ d, pipelineBody e = .ok d →
      O2.process_inquiry pipelineBody e = .success d) ∧
    (∀ msg, pipelineBody e = .error msg →
      O2.process_inquiry pipelineBody e =
        .failure ⟨true, msg, O2.extract_customer_details e, 0⟩) := by
  constructor
  · intro d h
    simp [O2.process_inquiry, h]
  · intro msg h
    simp [O2.process_inquiry, h, O2.create_error_response]

/-- C1 witness: a pipeline body that raises is converted into the error
record, with the sender's email still identified. -/
theorem C1_pipeline_error_containment_witness :
    failingStage c1Email = .error "stage exception" ∧
    O2.process_inquiry failingStage c1Email =
      .failure ⟨true, "stage exception", O2.extract_customer_details c1Email, 0⟩ ∧
    (O2.extract_customer_details c1Email).email = "mark.henry@example.com" :=
  ⟨rfl,
   (C1_pipeline_error_containment failingStage c1Email).2 "stage exception" rfl,
   by decide⟩

/-- C2 counterexample: on the input whose extractor finds adults = 0,
children = 5 and an explicit total of 3, the Aggregator's reconciliation is
skipped (the `if traveler_details['adults']` guard treats 0 as absent) and
the final record keeps total_travelers = 3 < adults + children = 5, refuting
the claim as stated. -/
theorem C2_traveler_total_counterexample :
    Extractor.extract_adults c2Comb = some 0 ∧
    Extractor.extract_children c2Comb = 5 ∧
    Extractor.extract_total_travelers c2Comb = some 3 ∧
    c2Data.1.traveler_details = ⟨some 3, some 0, some 5, true⟩ ∧
    ¬(0 + 5 ≤ 3) := by
  refine ⟨by decide, by decide, by decide, ?_, by decide⟩
  with_unfolding_all rfl

/-- C2 (amended): whenever the extractor finds an adults count of at least 1
together with a children count, the validated record's total is exactly the
maximum of the explicit extracted total (0 when missing) and adults +
children — hence at least adults + children and at least adults. -/
theorem C2_traveler_invariant_amended (f : O2.ExtractedFields) (subject : String)
    (cls : Classifier.Classification) (lang : LangDetect.LanguageResult)
    (e : O2.EmailData) (iid : String) (a c : Nat)
    (ha : f.num_adults = some a) (h1 : 1 ≤ a) (hc : f.num_children = some c) :
    (O2.validate_and_enhance_data
        (O2.structure_extracted_data f cls lang e iid)
        subject).1.traveler_details.total_travelers
      = some (max (f.total_travellers.getD 0) (a + c)) ∧
    a + c ≤ max (f.total_travellers.getD 0) (a + c) ∧
    a ≤ max (f.total_travellers.getD 0) (a + c) := by
  have ha0 : ¬(a = 0) := by omega
  refine ⟨?_, le_max_right _ _, le_trans (Nat.le_add_right a c) (le_max_right _ _)⟩
  rcases htot : f.total_travellers with _ | t
  · simp [O2.validate_and_enhance_data, O2.structure_extracted_data,
      O2.structure_traveler_details, O2.truthyN, ha, hc, htot, ha0]
  · by_cases ht0 : t = 0
    · subst ht0
      simp [O2.validate_and_enhance_data, O2.structure_extracted_data,
        O2.structure_traveler_details, O2.truthyN, ha, hc, htot, ha0]
    · by_cases heq : t = a + c
      · subst heq
        simp [O2.validate_and_enhance_data, O2.structure_extracted_data,
          O2.structure_traveler_details, O2.truthyN, ha, hc, htot, ht0, ha0]
      · simp [O2.validate_and_enhance_data, O2.structure_extracted_data,
          O2.structure_traveler_details, O2.truthyN, ha, hc, htot, ht0, heq, ha0]

/-- C2 witness: a concrete field record with adults = 2, children = 1 and a
conflicting explicit total of 5 reconciles to max 5 3 = 5. -/
theorem C2_traveler_invariant_amended_witness :
    c2wFields.num_adults = some 2 ∧ c2wFields.num_children = some 1 ∧
    c2wFields.total_travellers = some 5 ∧
    (O2.validate_and_enhance_data
        (O2.structure_extracted_data c2wFields
          ⟨Classifier.InquiryType.single_leg, 9/10, "pattern_based"⟩
          (LangDetect.detect_language "hope you are well") c1Email "INQ")
        "").1.traveler_details.total_travelers = some (max 5 (2 + 1)) :=
  ⟨rfl, rfl, rfl,
   (C2_traveler_invariant_amended c2wFields "" _ _ _ "INQ" 2 1 rfl
     (by decide) rfl).1⟩

/-- C3: modification detection has strict priority: whenever
`is_modification` fires on the lower-cased combined text and subject,
`classify_inquiry` returns `modification` with confidence 0.98, whatever the
multi-leg indicators would say. -/
theorem C3_modification_priority (text subject : String)
    (h : Classifier.is_modification (lowerStr (subject ++ " " ++ text))
      subject = true) :
    Classifier.classify_inquiry text subject =
      ⟨Classifier.InquiryType.modification, 98/100, "pattern_based"⟩ := by
  simp [Classifier.classify_inquiry, h]

/-- C3 witness: a `re: trip` subject over a body containing two distinct
destination-scoped sections (so `is_multi_leg` holds) still classifies as
`modification` with confidence 0.98. -/
theorem C3_modification_priority_witness :
    Classifier.is_modification (lowerStr (c3Subject ++ " " ++ c3Body))
      c3Subject = true ∧
    Classifier.is_multi_leg (lowerStr (c3Subject ++ " " ++ c3Body)) = true ∧
    Classifier.classify_inquiry c3Body c3Subject =
      ⟨Classifier.InquiryType.modification, 98/100, "pattern_based"⟩ :=
  ⟨by decide, by decide, C3_modification_priority c3Body c3Subject (by decide)⟩

/-- C4: on the spec's concrete scenario every extraction field matches the
claim — adults 6, children 2, total 8, duration "7 nights / 8 days",
destinations ["Thailand"], budget "₹45000 per person" — but the Inquiry
Classifier returns `multi_leg` with confidence 0.95, not `single_leg`: the
comma heuristic `(\w+)\s*,\s*(\w+)` of `is_multi_leg` accepts
"thailand, budget" as a pair of destinations. -/
theorem C4_concrete_scenario_classified_multi_leg :
    Extractor.extract_adults c4Comb = some 6 ∧
    Extractor.extract_children c4Comb = 2 ∧
    Extractor.extract_total_travelers c4Comb = some 8 ∧
    Extractor.extract_duration c4Comb = some "7 nights / 8 days" ∧
    Extractor.extract_destinations c4Comb = ["Thailand"] ∧
    Extractor.extract_budget c4Comb = some "₹45000 per person" ∧
    Classifier.classify_inquiry c4Email.body c4Email.subject =
      ⟨Classifier.InquiryType.multi_leg, 95/100, "pattern_based"⟩ ∧
    Classifier.InquiryType.multi_leg ≠ Classifier.InquiryType.single_leg := by
  refine ⟨by decide, by decide, by decide, by decide, by decide, by decide,
    ?_, by decide⟩
  with_unfolding_all rfl

/-- C5 counterexample: for a text stating only a one-day trip, the pipeline
extractor (`modules/optimized_extractor.py`) returns "1 nights / 1 days" —
nights floored at 1 by `max(1, days - 1)` — not the 0 nights the claim
demands. -/
theorem C5_one_day_counterexample :
    Extractor.extract_duration "1 day" = some "1 nights / 1 days" ∧
    some "1 nights / 1 days" ≠ some "0 nights / 1 days" := by
  exact ⟨by decide, by decide⟩

/-- C5 (amended): both cited extractors canonicalize to
"N nights / M days" and agree on the claim's 5-nights/6-days and 6-days
cases; for a day-only match the EnhancedNER extractor derives
nights = max(M − 1, 0) — in particular 0 nights for a 1-day trip — while
the optimized pipeline extractor floors nights at 1, returning
"1 nights / 1 days" for M = 1. -/
theorem C5_duration_canonicalization_amended :
    (∀ (nGroups : Nat) (m : RMatch) (g : List Char),
      subIn "night" m = false → subIn "day" m = true → m.grp 1 = some g →
      NER.durationFromMatch nGroups m =
        some ⟨Extractor.mkDuration (parseNatDigits g - 1) (parseNatDigits g),
          9/10⟩) ∧
    Extractor.extract_duration "5 nights / 6 days" = some "5 nights / 6 days" ∧
    Extractor.extract_duration "6 days" = some "5 nights / 6 days" ∧
    NER.extract_duration_ner "5 nights / 6 days" =
      some ("5 nights / 6 days", 95/100) ∧
    NER.extract_duration_ner "6 days" = some ("5 nights / 6 days", 9/10) ∧
    NER.extract_duration_ner "1 day" = some ("0 nights / 1 days", 9/10) ∧
    Extractor.extract_duration "1 day" = some "1 nights / 1 days" := by
  refine ⟨?_, by decide, by decide, by with_unfolding_all rfl,
    by with_unfolding_all rfl, by with_unfolding_all rfl, by decide⟩
  intro nGroups m g hn hd hg
  unfold NER.durationFromMatch
  rw [hg]
  simp only [hn, hd, Bool.false_eq_true, if_false, if_true]
  have harith : (if 1 < parseNatDigits g then max 1 (parseNatDigits g - 1) else 0)
      = parseNatDigits g - 1 := by
    split_ifs <;> omega
  rw [harith]

/-- C5 witness: the day-only branch applied to the concrete one-day match
gives 1 − 1 = 0 nights. -/
theorem C5_duration_canonicalization_amended_witness :
    NER.durationFromMatch 2 ⟨"1 day".data, [(1, ['1'])]⟩ =
      some ⟨Extractor.mkDuration (parseNatDigits ['1'] - 1)
        (parseNatDigits ['1']), 9/10⟩ ∧
    Extractor.mkDuration (parseNatDigits ['1'] - 1) (parseNatDigits ['1']) =
      "0 nights / 1 days" :=
  ⟨C5_duration_canonicalization_amended.1 2 ⟨"1 day".data, [(1, ['1'])]⟩ ['1']
      (by decide) (by decide) rfl,
   by decide⟩

/-- C6 counterexample: on the empty string every score is 0, the
insertion-order maximum picks `hindi`, and no script branch of
`enhance_detection` applies (no Latin letter, no Devanagari), so the
detector returns `hindi` with confidence 0.7 — not `english`. -/
theorem C6_empty_input_counterexample :
    LangDetect.detect_language "" = ⟨"hindi", 7/10, ⟨0, 0, 0, 0⟩⟩ ∧
    "hindi" ≠ "english" := by
  refine ⟨?_, by decide⟩
  with_unfolding_all rfl

/-- C6 (amended): the detector is total by construction, and on every input
containing a Latin letter, no Devanagari, and zero score on all four
categories, it returns `english` with the baseline confidence 0.8; inputs
with no Latin letter at all (the empty string among them) instead surface
the insertion-order tie-break `hindi`. -/
theorem C6_trivial_input_amended (text : String)
    (hl : LangDetect.hasLatinChar text = true)
    (hd : LangDetect.hasDevanagariChar text = false)
    (h1 : LangDetect.calculate_hindi_score text = 0)
    (h2 : LangDetect.calculate_hindi_english_score (lowerStr text) = 0)
    (h3 : LangDetect.calculate_hinglish_score (lowerStr text) = 0)
    (h4 : LangDetect.calculate_english_score (lowerStr text) = 0) :
    LangDetect.detect_language text = ⟨"english", 8/10, ⟨0, 0, 0, 0⟩⟩ := by
  simp [LangDetect.detect_language, LangDetect.enhance_detection,
    LangDetect.primaryOf, LangDetect.scoreOf, h1, h2, h3, h4, hl, hd]
  norm_num

/-- C6 witness: `"qqq"` hits no pattern, has Latin letters, and detects as
`english` with confidence 0.8. -/
theorem C6_trivial_input_amended_witness :
    LangDetect.hasLatinChar "qqq" = true ∧
    LangDetect.detect_language "qqq" = ⟨"english", 8/10, ⟨0, 0, 0, 0⟩⟩ :=
  ⟨by decide,
   C6_trivial_input_amended "qqq" (by decide) (by decide)
     (by with_unfolding_all rfl) (by with_unfolding_all rfl)
     (by with_unfolding_all rfl) (by with_unfolding_all rfl)⟩

/-- C7: any input with at least one Devanagari code point and no Latin
letter is classified `hindi`, whatever the per-category scores: the
script-composition pass of `enhance_detection` overrides them. -/
theorem C7_devanagari_forces_hindi (text : String)
    (hd : LangDetect.hasDevanagariChar text = true)
    (hl : LangDetect.hasLatinChar text = false) :
    (LangDetect.detect_language text).primary_language = "hindi" := by
  simp [LangDetect.detect_language, LangDetect.enhance_detection, hd, hl]

/-- C7 witness: a pure-Devanagari input is classified `hindi`. -/
theorem C7_devanagari_forces_hindi_witness :
    LangDetect.hasDevanagariChar "नमस्ते यात्रा" = true ∧
    LangDetect.hasLatinChar "नमस्ते यात्रा" = false ∧
    (LangDetect.detect_language "नमस्ते यात्रा").primary_language = "hindi" :=
  ⟨by decide, by decide,
   C7_devanagari_forces_hindi "नमस्ते यात्रा" (by decide) (by decide)⟩

/-- C8: every destination the extractor returns has a lower-cased name
outside the departure-city set — a departure city can never appear in the
result — and on the spec's concrete input the result is exactly ["Goa"]. -/
theorem C8_departure_city_excluded :
    (∀ (text d : String), d ∈ Extractor.extract_destinations text →
      (Extractor.departureCities text).contains (lowerStr d) = false) ∧
    Extractor.extract_destinations c8Text = ["Goa"] := by
  constructor
  · intro text d hd
    have hm := mem_of_mem_pyListSet _ _ hd
    have hcond := (List.mem_filter.mp hm).2
    simp only [Bool.and_eq_true, Bool.not_eq_true'] at hcond
    exact hcond.2
  · decide

/-- C8 witness: on the concrete input, "Goa" is extracted and "mumbai" is
recorded as a departure city, hence excluded. -/
theorem C8_departure_city_excluded_witness :
    "Goa" ∈ Extractor.extract_destinations c8Text ∧
    "mumbai" ∈ Extractor.departureCities c8Text ∧
    (Extractor.departureCities c8Text).contains (lowerStr "Goa") = false :=
  ⟨by decide, by decide, C8_departure_city_excluded.1 c8Text "Goa" (by decide)⟩

/-- C9: the shorthand multipliers of `_extract_budget` are exact — a
matched phrase containing `lakh` multiplies the comma-stripped number by
100,000; containing `crore` (and no `lakh` shorthand) by 10,000,000;
containing `thousand` or a bare `k` (and no larger shorthand) by 1,000 —
a "per person" qualifier in the matched phrase is scored 0.95, and whenever
any candidate carries 0.95 the extractor's returned confidence is 0.95
(0.95 bounds every confidence it assigns). -/
theorem C9_budget_shorthand_normalization :
    (∀ (m g : List Char), containsSub "lakh".data m = true →
      NER.budgetAmountOf m g = parseNatDropCommas g * 100000) ∧
    (∀ (m g : List Char), containsSub "lakh".data m = false →
      containsSub "लाख".data m = false → containsSub "crore".data m = true →
      NER.budgetAmountOf m g = parseNatDropCommas g * 10000000) ∧
    (∀ (m g : List Char), containsSub "lakh".data m = false →
      containsSub "लाख".data m = false → containsSub "crore".data m = false →
      containsSub "करोड़".data m = false →
      (containsSub "thousand".data m = true ∨ containsSub "k".data m = true) →
      NER.budgetAmountOf m g = parseNatDropCommas g * 1000) ∧
    (∀ (m : List Char), containsSub "per person".data m = true →
      NER.budgetConfidenceOf m = 95/100) ∧
    (∀ (text : String) (x : NER.Cand), x ∈ NER.budgetCands text →
      x.confidence = 95/100 →
      ∃ v, NER.extract_budget_ner text = some (v, 95/100)) := by
  have hlakhs : ∀ (m : List Char), containsSub "lakh".data m = false →
      containsSub "lakhs".data m = false := by
    intro m h
    by_contra hc
    rw [Bool.not_eq_false] at hc
    have hds : ("lakhs".data : List Char) = "lakh".data ++ ['s'] := by decide
    rw [hds] at hc
    rw [containsSub_append_left _ _ _ hc] at h
    simp at h
  refine ⟨?_, ?_, ?_, ?_, ?_⟩
  · intro m g h
    simp [NER.budgetAmountOf, h]
  · intro m g h1 h2 h3
    simp [NER.budgetAmountOf, h1, h2, h3, hlakhs m h1]
  · intro m g h1 h2 h3 h4 h5
    rcases h5 with h5 | h5 <;>
      simp [NER.budgetAmountOf, h1, h2, h3, h4, h5, hlakhs m h1]
  · intro m h
    simp [NER.budgetConfidenceOf, h]
  · intro text x hx hq
    exact pickBest_max _ _ (fun y hy => budgetCands_confidence_le text y hy)
      ⟨x, hx, hq⟩

/-- C9 witness: the multipliers and the per-person confidence at concrete
matched phrases, plus end-to-end extractions. -/
theorem C9_budget_shorthand_normalization_witness :
    NER.budgetAmountOf "2 lakh".data "2".data = parseNatDropCommas "2".data * 100000 ∧
    NER.budgetAmountOf "2 lakh".data "2".data = 200000 ∧
    NER.budgetAmountOf "5 crore".data "5".data = parseNatDropCommas "5".data * 10000000 ∧
    NER.budgetAmountOf "20 thousand".data "20".data = parseNatDropCommas "20".data * 1000 ∧
    NER.budgetConfidenceOf "rs 5000 per person".data = 95/100 ∧
    (∃ v, NER.extract_budget_ner "rs 5000 per person" = some (v, 95/100)) ∧
    NER.extract_budget_ner "rs 5000 per person" = some ("₹5,000", 95/100) ∧
    NER.extract_budget_ner "price rs 2 lakh" = some ("₹200,000", 8/10) := by
  have hbc : NER.budgetCands "rs 5000 per person" = [⟨"₹5,000", 95/100⟩] := by
    with_unfolding_all rfl
  refine ⟨C9_budget_shorthand_normalization.1 _ _ (by decide),
    by decide,
    C9_budget_shorthand_normalization.2.1 _ _ (by decide) (by decide) (by decide),
    C9_budget_shorthand_normalization.2.2.1 _ _ (by decide) (by decide)
      (by decide) (by decide) (Or.inl (by decide)),
    C9_budget_shorthand_normalization.2.2.2.1 _ (by decide),
    C9_budget_shorthand_normalization.2.2.2.2 "rs 5000 per person"
      ⟨"₹5,000", 95/100⟩ ?_ rfl,
    by with_unfolding_all rfl,
    by with_unfolding_all rfl⟩
  rw [hbc]
  exact List.mem_singleton.mpr rfl

/-- C10: for every extraction outcome — including one where every field
extraction missed — the non-error path's completeness score is at least 60:
the five required groups are always built as non-empty records, each
contributing its 12 points. -/
theorem C10_completeness_floor (f : O2.ExtractedFields)
    (cls : Classifier.Classification) (lang : LangDetect.LanguageResult)
    (e : O2.EmailData) (iid subject : String) :
    60 ≤ (O2.validate_and_enhance_data
      (O2.structure_extracted_data f cls lang e iid) subject).2 :=
  completeness_ge_sixty _

end XSV
